import Mathlib

namespace Foodie

/-
Shallow embedding of the recommendation and user-similarity core of the
foodie restaurant-discovery application (backend/app/services/
recommendation.py, advanced_recommendation.py, similarity_engine.py),
together with proofs about it.

Modelling conventions used throughout:

* Python floats are modelled as rationals.  The transcendental helpers of
  numpy, sklearn and geopy (exponential time decay, cosine similarity of
  float vectors, natural logarithm, geodesic distance) have no rational
  value in general, so every function that consumes one takes it as an
  explicit argument.  Concrete instantiations are only used at inputs
  where the true value of the modelled function is itself rational (for
  example exp 0 = 1, the cosine of two identical vectors, or the geodesic
  distance between coinciding points).  The predicate IsCosineVal
  certifies, purely in rational arithmetic, that a supplied value is the
  exact cosine similarity of two given rational vectors.
* Comparisons of a Euclidean/geodesic quantity against a positive constant
  are expressed on squares (sqrt is strictly monotone on nonnegatives, so
  the two comparisons are equivalent); this keeps every definition
  computable.
* Timestamps are modelled by the age of a row in whole days relative to
  the moment the engine runs (daysAgo); the SQL comparison
  created_at > now - K days becomes daysAgo < K.
* Python dicts keyed by ids are modelled as association lists read by
  first match; the engines build these dicts with one entry per key.
  Iteration order of Python sets, which is unspecified, is fixed to
  first-occurrence order; no proved statement depends on that order.
* Python sorted() is stable, which List.insertionSort also is; pandas
  sort_values uses an unstable quicksort, and no proved statement below
  depends on the relative order of tied elements.
-/

/-- Arithmetic mean of a list of rationals; 0 on the empty list (numpy mean
of an empty list is NaN, and every call site below guards emptiness exactly
as the Python source does). -/
def mean (l : List ℚ) : ℚ := l.sum / l.length

/-- Dot product of two rating vectors; every use is at equal lengths. -/
def dotp : List ℚ → List ℚ → ℚ
  | a :: as, b :: bs => a * b + dotp as bs
  | _, _ => 0

/-- Squared Euclidean norm of a vector. -/
def normSq (l : List ℚ) : ℚ := dotp l l

/-- Certificate that v is exactly the cosine similarity of the vectors a
and b, stated in rational arithmetic: v has the sign of the dot product and
its square times the product of the squared norms equals the squared dot
product.  For nonzero vectors this pins v to dot / (norm a * norm b). -/
def IsCosineVal (a b : List ℚ) (v : ℚ) : Prop :=
  v ^ 2 * (normSq a * normSq b) = dotp a b ^ 2 ∧ (0 ≤ v ↔ 0 ≤ dotp a b)

/-- Weighted average, numpy.average(values, weights): sum of value * weight
over sum of weights, on (value, weight) pairs. -/
def wavg (l : List (ℚ × ℚ)) : ℚ :=
  (l.map (fun p => p.1 * p.2)).sum / (l.map (fun p => p.2)).sum

/-- First-match lookup in an association list; models reading a Python dict
built with one entry per key. -/
def alookup {α β : Type} [BEq α] (l : List (α × β)) (k : α) : Option β :=
  (l.find? (fun p => p.1 == k)).map (fun p => p.2)

/-- Duplicate removal keeping the first occurrence of each element,
modelling iteration over the distinct values of a column (or over a Python
set) in first-occurrence order. -/
def dedupFirst {α : Type} [DecidableEq α] : List α → List α
  | [] => []
  | x :: xs => x :: dedupFirst (xs.filter (fun y => y ≠ x))
termination_by l => l.length
decreasing_by simp only [List.length_cons]; exact Nat.lt_succ_of_le (List.length_filter_le _ _)

/-! ## Similarity engine: cluster sizing (similarity_engine.py, _update_user_clusters) -/

/-- Number of KMeans clusters chosen by SimilarityEngine._update_user_clusters
for a candidate set of n users: n_clusters = min(max(2, len(user_ids) // 10), 20). -/
def nClusters (n : Nat) : Nat := min (max 2 (n / 10)) 20

/-! ## Similarity engine: cluster weighted ratings (similarity_engine.py,
_calculate_weighted_rating) -/

/-- One joined row read by _calculate_weighted_rating: a rating value, its
age in days, and the total number of ratings submitted by its author (the
COUNT(*) OVER (PARTITION BY user_id) window column). -/
structure ClusterRatingRow where
  rating : ℚ
  daysAgo : Int
  userTotalRatings : Nat
deriving DecidableEq

/-- Rows from the last 60 days (created_at > now - 60 days). -/
def recentRows (rows : List ClusterRatingRow) : List ClusterRatingRow :=
  rows.filter (fun x => x.daysAgo < 60)

/-- Rows at least 60 days old (created_at <= now - 60 days). -/
def oldRows (rows : List ClusterRatingRow) : List ClusterRatingRow :=
  rows.filter (fun x => ¬ x.daysAgo < 60)

/-- recent_trend exactly as _calculate_weighted_rating computes it: the
difference of the recent and old mean ratings is produced only when there
are at least TWO ratings in the last 60 days (len(recent_ratings) >= 2) and
at least one older rating (old_avg is not NaN); otherwise the trend is 0. -/
def recentTrend (rows : List ClusterRatingRow) : ℚ :=
  if 2 ≤ (recentRows rows).length ∧ (oldRows rows).length ≠ 0 then
    mean ((recentRows rows).map (fun x => x.rating)) -
      mean ((oldRows rows).map (fun x => x.rating))
  else 0

/-- recent_trend as the specification words it: mean of the last-60-day
ratings minus mean of the older ratings, and 0 whenever either side is
empty.  This definition follows the words of the claim and is compared
against recentTrend, which follows the source. -/
def recentTrendSpec (rows : List ClusterRatingRow) : ℚ :=
  if (recentRows rows).length = 0 ∨ (oldRows rows).length = 0 then 0
  else
    mean ((recentRows rows).map (fun x => x.rating)) -
      mean ((oldRows rows).map (fun x => x.rating))

/-- Weight of one rating inside a cluster cell:
exp(-days_old/180) * min(user_total_ratings/20, 2.0); the exponential
factor is supplied as the argument timeW. -/
def ratingWeight (timeW : Int → ℚ) (x : ClusterRatingRow) : ℚ :=
  timeW x.daysAgo * min ((x.userTotalRatings : ℚ) / 20) 2

/-- One weighted-rating cell as stored in the weighted_ratings table. -/
structure WeightedCell where
  avgRating : ℚ
  confidence : ℚ
  totalRatings : Nat
  variance : ℚ
  trend : ℚ
deriving DecidableEq

/-- SimilarityEngine._calculate_weighted_rating: weighted mean and weighted
variance of the cluster ratings, a confidence from the effective sample
size (sum w)^2 / sum (w^2), the raw count, and the recent trend; none when
the restaurant has no qualifying rating. -/
def calculateWeightedRating (timeW : Int → ℚ) (rows : List ClusterRatingRow) :
    Option WeightedCell :=
  if rows.isEmpty then none
  else
    let ws := rows.map (ratingWeight timeW)
    let wa := wavg (rows.map (fun x => (x.rating, ratingWeight timeW x)))
    let varnc := wavg (rows.map (fun x => ((x.rating - wa) ^ 2, ratingWeight timeW x)))
    let ess := ws.sum ^ 2 / (ws.map (fun w => w ^ 2)).sum
    some { avgRating := wa, confidence := min (ess / 10) 1, totalRatings := rows.length,
           variance := varnc, trend := recentTrend rows }

/-- Concrete input refuting C8: one 5-star rating today and one 3-star
rating 100 days ago, both by a rater with a single rating. -/
def rowsC8 : List ClusterRatingRow := [⟨5, 0, 1⟩, ⟨3, 100, 1⟩]

/-! ## Similarity engine: rating-similarity computation and edge store
(similarity_engine.py, _compute_rating_similarities and
_store_combined_similarities) -/

/-- One row of the ratings table: author, restaurant, value, and age in
days.  Ratings pass the API validation 1 <= rating <= 5, so every stored
rating is positive; theorems that need it take positivity as a hypothesis. -/
structure RatingRow where
  userId : Nat
  restId : Nat
  rating : ℚ
  daysAgo : Int
deriving DecidableEq

/-- Ratings within the trailing 365 days, the window used both by
_get_users_with_ratings and by the rating-matrix query. -/
def recentRatings (data : List RatingRow) : List RatingRow :=
  data.filter (fun x => x.daysAgo < 365)

/-- Sorted distinct user ids of the rating matrix (pandas pivot_table
sorts its index). -/
def matrixUsers (data : List RatingRow) : List Nat :=
  (dedupFirst (data.map (fun x => x.userId))).insertionSort (· ≤ ·)

/-- Sorted distinct restaurant ids of the rating matrix (pivot_table
columns). -/
def matrixRests (data : List RatingRow) : List Nat :=
  (dedupFirst (data.map (fun x => x.restId))).insertionSort (· ≤ ·)

/-- Whether user u has rated restaurant r in the data. -/
def ratedBy (data : List RatingRow) (u r : Nat) : Bool :=
  data.any (fun x => x.userId == u && x.restId == r)

/-- One cell of the zero-filled user-item matrix: the mean of the ratings
by u of r (pivot_table aggregates duplicates by mean), 0 when unrated
(fillna(0)). -/
def userItemVal (data : List RatingRow) (u r : Nat) : ℚ :=
  let l := (data.filter (fun x => x.userId == u && x.restId == r)).map (fun x => x.rating)
  if l.isEmpty then 0 else mean l

/-- Row vector of user u over the matrix restaurant columns. -/
def userVec (data : List RatingRow) (u : Nat) : List ℚ :=
  (matrixRests data).map (userItemVal data u)

/-- All ordered index pairs of a list, first component strictly earlier. -/
def pairsLt {α : Type} : List α → List (α × α)
  | [] => []
  | x :: xs => xs.map (fun y => (x, y)) ++ pairsLt xs

/-- SimilarityEngine._compute_rating_similarities: cosine similarity of
the zero-filled full rating vectors for every user pair i < j of the
365-day window, keeping only pairs whose similarity exceeds 0.1.  There is
no minimum-overlap requirement anywhere in this function.  The cosine
itself is supplied as the argument cos (see IsCosineVal). -/
def computeRatingSimilarities (cos : List ℚ → List ℚ → ℚ) (data : List RatingRow) :
    List ((Nat × Nat) × ℚ) :=
  (pairsLt (matrixUsers (recentRatings data))).filterMap (fun pr =>
    if 1 / 10 < cos (userVec (recentRatings data) pr.1) (userVec (recentRatings data) pr.2)
    then some ((pr.1, pr.2),
               cos (userVec (recentRatings data) pr.1) (userVec (recentRatings data) pr.2))
    else none)

/-- Number of distinct restaurants rated by both u and v. -/
def coRatedCount (data : List RatingRow) (u v : Nat) : Nat :=
  ((matrixRests data).filter (fun r => ratedBy data u r && ratedBy data v r)).length

/-- One stored row of the user_similarities table; lastComputedAge is the
age in days of its last_computed timestamp when the batch step runs, so a
freshly written row has age 0 and the 7-day purge removes rows with age
greater than 7. -/
structure SimEdge where
  user1 : Nat
  user2 : Nat
  ratingSim : ℚ
  prefSim : ℚ
  overallSim : ℚ
  lastComputedAge : Int
deriving DecidableEq

/-- Whether a stored edge covers the unordered pair (a, b), in either
orientation, as the upsert existence query does. -/
def edgeMatches (a b : Nat) (e : SimEdge) : Bool :=
  (e.user1 == a && e.user2 == b) || (e.user1 == b && e.user2 == a)

/-- Update the first list entry satisfying p by f, modelling the
SQLAlchemy query(...).first() followed by an in-place field update. -/
def updateFirst {α : Type} (p : α → Bool) (f : α → α) : List α → List α
  | [] => []
  | e :: es => if p e then f e :: es else e :: updateFirst p f es

/-- Processing of one user pair inside _store_combined_similarities: read
each component with default 0.0, blend overall = 0.7 * rating + 0.3 * pref,
and only when overall > 0.15 either rewrite the first matching stored edge
or append a new one with user1 = min, user2 = max and a fresh timestamp. -/
def upsertSimilarity (rs ps : List ((Nat × Nat) × ℚ)) (pair : Nat × Nat)
    (store : List SimEdge) : List SimEdge :=
  let r := (alookup rs pair).getD 0
  let p := (alookup ps pair).getD 0
  let ov := r * (7 / 10) + p * (3 / 10)
  if 15 / 100 < ov then
    if store.any (edgeMatches pair.1 pair.2) then
      updateFirst (edgeMatches pair.1 pair.2)
        (fun e => { e with ratingSim := r, prefSim := p, overallSim := ov,
                           lastComputedAge := 0 }) store
    else
      store ++ [{ user1 := min pair.1 pair.2, user2 := max pair.1 pair.2,
                  ratingSim := r, prefSim := p, overallSim := ov, lastComputedAge := 0 }]
  else store

/-- Key set of both similarity maps, set(rating_sims) | set(pref_sims), in
first-occurrence order. -/
def pairKeys (rs ps : List ((Nat × Nat) × ℚ)) : List (Nat × Nat) :=
  dedupFirst (rs.map (fun x => x.1) ++ ps.map (fun x => x.1))

/-- SimilarityEngine._store_combined_similarities: purge edges whose
last_computed is older than 7 days, then upsert every pair of either
similarity map.  The batched add_all/commit cadence of the source changes
only transaction boundaries, not the final stored content. -/
def storeCombinedSimilarities (rs ps : List ((Nat × Nat) × ℚ))
    (store : List SimEdge) : List SimEdge :=
  let pruned := store.filter (fun e => ¬ 7 < e.lastComputedAge)
  (pairKeys rs ps).foldl (fun st pair => upsertSimilarity rs ps pair st) pruned

/-- The invariant claimed for stored edges: overall similarity above 0.15
and equal to the 0.7/0.3 blend of the stored components. -/
def EdgeInv (e : SimEdge) : Prop :=
  15 / 100 < e.overallSim ∧ e.overallSim = e.ratingSim * (7 / 10) + e.prefSim * (3 / 10)

/-- Concrete data refuting C2: user 1 rated restaurants 1 and 2, user 2
rated restaurants 2 and 3 (all 5 stars, today); they co-rate exactly one
restaurant. -/
def dataC2 : List RatingRow := [⟨1, 1, 5, 0⟩, ⟨1, 2, 5, 0⟩, ⟨2, 2, 5, 0⟩, ⟨2, 3, 5, 0⟩]

/-- Constant stand-in for sklearn cosine_similarity on dataC2.  The single
pair the batch evaluates is the zero-filled vectors [5,5,0] and [0,5,5],
whose true cosine is 25 / (sqrt 50 * sqrt 50) = 1/2 exactly, as the
IsCosineVal conjunct of the counterexample certifies. -/
def cosHalf : List ℚ → List ℚ → ℚ := fun _ _ => 1 / 2

/-- Two users with ratings on disjoint restaurants, used to witness the
amended C2 theorem. -/
def dataC2W : List RatingRow := [⟨1, 1, 5, 0⟩, ⟨2, 2, 5, 0⟩]

/-- Constant stand-in for the cosine on dataC2W: the only evaluated pair is
the orthogonal vectors [5,0] and [0,5], whose cosine is exactly 0. -/
def cosZero : List ℚ → List ℚ → ℚ := fun _ _ => 0

/-! ## Advanced recommendation engine (advanced_recommendation.py)

The pipeline of AdvancedRecommendationEngine.get_personalized_recommendations:
profile building, the four scoring passes, hybrid blending, optional
location boost, diversity selection and the cold-start fallback.  The
formatting step _format_recommendations maps the selected restaurant ids to
output records preserving their order, so the pipeline is modelled as
returning the ordered id list.  Fields of the restaurants table not read by
any scoring decision (name, description, image_url) are omitted. -/

/-- Restaurant feature row as read by the advanced engine. -/
structure Restaurant where
  id : Nat
  cuisine : String
  price : Nat
  avgRating : ℚ
  lat : ℚ
  lng : ℚ
  tags : List String
  active : Bool
deriving DecidableEq

instance : Inhabited Restaurant := ⟨⟨0, "", 0, 0, 0, 0, [], false⟩⟩

/-- Decoded bubble_data of one user: category name to a map from feature
name to its weight (the source reads preferences[feature]["weight"] with
default 1.0; a present feature is modelled as carrying its weight). -/
abbrev BubbleData := List (String × List (String × ℚ))

/-- The queryable store consumed by the advanced engine. -/
structure DB where
  ratings : List RatingRow
  restaurants : List Restaurant
  bubblePrefs : List (Nat × BubbleData)
deriving DecidableEq

/-- Rating rows of user u joined with the restaurants table (the profile
query joins ratings to restaurants, dropping rows whose restaurant is
missing, and does not filter on active). -/
def userJoinedRows (db : DB) (u : Nat) : List (RatingRow × Restaurant) :=
  (db.ratings.filter (fun x => x.userId == u)).filterMap
    (fun x => (db.restaurants.find? (fun r => r.id == x.restId)).map (fun r => (x, r)))

/-- Distinct cuisines of the joined rows, in first-occurrence order. -/
def distinctCuisines (rows : List (RatingRow × Restaurant)) : List String :=
  dedupFirst (rows.map (fun p => p.2.cuisine))

/-- Cuisine affinity: recency-weighted average rating over 5, times
1 + min(count/10, 1); the decay exp(-days/90) is the argument d90. -/
def cuisineScore (d90 : Int → ℚ) (rows : List (RatingRow × Restaurant)) (c : String) : ℚ :=
  let cr := rows.filter (fun p => p.2.cuisine == c)
  (wavg (cr.map (fun p => (p.1.rating, d90 p.1.daysAgo))) / 5) *
    (1 + min ((cr.length : ℚ) / 10) 1)

/-- _calculate_cuisine_preferences: one affinity per distinct cuisine. -/
def cuisinePrefsOf (d90 : Int → ℚ) (rows : List (RatingRow × Restaurant)) :
    List (String × ℚ) :=
  (distinctCuisines rows).map (fun c => (c, cuisineScore d90 rows c))

/-- Per-price-level aggregate of _calculate_price_sensitivity. -/
structure PricePerf where
  avgRating : ℚ
  count : Nat
  prefScore : ℚ
deriving DecidableEq

/-- _calculate_price_sensitivity over the fixed levels 1..4; absent levels
produce no entry. -/
def pricePrefsOf (rows : List (RatingRow × Restaurant)) : List (Nat × PricePerf) :=
  [1, 2, 3, 4].filterMap (fun p =>
    let pr := rows.filter (fun x => x.2.price == p)
    if pr.isEmpty then none
    else
      some (p, { avgRating := mean (pr.map (fun x => x.1.rating)),
                 count := pr.length,
                 prefScore := (mean (pr.map (fun x => x.1.rating)) / 5) *
                   min ((pr.length : ℚ) / 5) 1 }))

/-- _calculate_quality_standards: mean of user rating minus restaurant
average rating. -/
def qualityStandardsOf (rows : List (RatingRow × Restaurant)) : ℚ :=
  mean (rows.map (fun x => x.1.rating - x.2.avgRating))

/-- _calculate_exploration_ratio: distinct cuisines over total ratings. -/
def explorationRatioOf (rows : List (RatingRow × Restaurant)) : ℚ :=
  if rows.length = 0 then 0
  else ((distinctCuisines rows).length : ℚ) / (rows.length : ℚ)

/-- _get_bubble_preferences: the stored decoded survey data, {} when absent. -/
def bubblePrefsOf (db : DB) (u : Nat) : BubbleData :=
  (alookup db.bubblePrefs u).getD []

/-- The user profile dict of _build_user_profile.  The rating_variance
field (pandas sample variance, NaN for a single rating) is read by no
downstream component and is omitted. -/
structure UserProfile where
  userId : Nat
  cuisinePrefs : List (String × ℚ)
  pricePrefs : List (Nat × PricePerf)
  qualityStandards : ℚ
  bubblePrefs : BubbleData
  explorationRatio : ℚ
  totalRatings : Nat
  avgPersonalRating : ℚ
deriving DecidableEq

instance : Inhabited UserProfile := ⟨⟨0, [], [], 0, [], 0, 0, 0⟩⟩

/-- _build_user_profile: none when the user has no (joined) rating rows,
which also covers a nonexistent user. -/
def buildUserProfile? (d90 : Int → ℚ) (db : DB) (u : Nat) : Option UserProfile :=
  let rows := userJoinedRows db u
  if rows.isEmpty then none
  else
    some { userId := u,
           cuisinePrefs := cuisinePrefsOf d90 rows,
           pricePrefs := pricePrefsOf rows,
           qualityStandards := qualityStandardsOf rows,
           bubblePrefs := bubblePrefsOf db u,
           explorationRatio := explorationRatioOf rows,
           totalRatings := rows.length,
           avgPersonalRating := mean (rows.map (fun x => x.1.rating)) }

/-- Descending order on scored ids, the key of sorted(..., reverse=True)
and of pandas sort_values(ascending=False). -/
def scoreGe (a b : Nat × ℚ) : Prop := b.2 ≤ a.2

instance : DecidableRel scoreGe := fun a b => inferInstanceAs (Decidable (b.2 ≤ a.2))

/-- The (rating, similarity) contributions to one unrated restaurant inside
_collaborative_filtering: ratings of similar users with similarity above
0.1 and a positive matrix cell. -/
def collabContrib (data : List RatingRow) (simUsers : List (Nat × ℚ)) (r : Nat) :
    List (ℚ × ℚ) :=
  simUsers.filterMap (fun p =>
    if 1 / 10 < p.2 ∧ 0 < userItemVal data p.1 r then
      some (userItemVal data p.1 r, p.2) else none)

/-- Candidate scoring of one unrated restaurant: the similarity-weighted
average of the contributions times count/20; none when no similar user
rated it. -/
def collabEntry (data : List RatingRow) (simUsers : List (Nat × ℚ)) (r : Nat) :
    Option (Nat × ℚ) :=
  if (collabContrib data simUsers r).isEmpty then none
  else some (r, wavg (collabContrib data simUsers r) *
    (((collabContrib data simUsers r).length : ℚ) / 20))

/-- The top-20 rows of the target user's sorted similarity column, after
dropping its leading entry (sort_values(ascending=False)[1:21]). -/
def topSimilarUsers (cos : List ℚ → List ℚ → ℚ) (data : List RatingRow) (u : Nat) :
    List (Nat × ℚ) :=
  ((((matrixUsers data).map
    (fun v => (v, cos (userVec data u) (userVec data v)))).insertionSort scoreGe).drop 1).take 20

/-- _collaborative_filtering: empty when there are no ratings or the target
user is not in the matrix; otherwise the top similar users score the
restaurants whose matrix cell for the target is 0. -/
def collaborativeFiltering (cos : List ℚ → List ℚ → ℚ) (data : List RatingRow) (u : Nat) :
    List (Nat × ℚ) :=
  if data.isEmpty then []
  else if u ∈ matrixUsers data then
    ((matrixRests data).filter (fun r => decide (userItemVal data u r = 0))).filterMap
      (collabEntry data (topSimilarUsers cos data u))
  else []

/-- The fixed feature_mappings table of _match_bubble_preferences. -/
def featureMappings : List (String × List String) :=
  [("ambiance", ["casual", "upscale", "romantic", "family_friendly"]),
   ("dietary", ["vegetarian_friendly", "vegan_options", "gluten_free"]),
   ("service_style", ["fast_casual", "full_service", "takeout"]),
   ("cuisine_specific", ["authentic", "fusion", "traditional"]),
   ("atmosphere", ["quiet", "lively", "outdoor_seating"])]

/-- _match_bubble_preferences: every mapped feature present both in the
restaurant tags and in the survey category contributes its weight to the
match score and to the total weight (the source adds the same weight to
both accumulators), and the result is their ratio, 0 when nothing matched. -/
def matchBubblePreferences (tags : List String) (bubble : BubbleData) : ℚ :=
  let ws := bubble.flatMap (fun cat =>
    match alookup featureMappings cat.1 with
    | none => []
    | some feats => feats.filterMap (fun f =>
        if f ∈ tags ∧ (alookup cat.2 f).isSome then some ((alookup cat.2 f).getD 1)
        else none))
  if 0 < ws.sum then ws.sum / ws.sum else 0

/-- Content score of one restaurant: 0.4 * cuisine affinity + 0.3 * price
preference + 0.3 * bubble match, each term only when its key exists. -/
def contentScore (p : UserProfile) (r : Restaurant) : ℚ :=
  (match alookup p.cuisinePrefs r.cuisine with
   | some a => a * (4 / 10)
   | none => 0) +
  (match alookup p.pricePrefs r.price with
   | some pp => pp.prefScore * (3 / 10)
   | none => 0) +
  (if p.bubblePrefs.isEmpty then 0
   else matchBubblePreferences r.tags p.bubblePrefs * (3 / 10))

/-- _content_based_filtering assigns a score to EVERY restaurant of the
feature frame, including restaurants the user has already rated. -/
def contentBasedFiltering (p : UserProfile) (rests : List Restaurant) : List (Nat × ℚ) :=
  rests.map (fun r => (r.id, contentScore p r))

/-- Rating dict of user u, restaurant id to rating (one rating per user
and restaurant, as the rating API enforces by updating in place). -/
def userRestList (data : List RatingRow) (u : Nat) : List (Nat × ℚ) :=
  (data.filter (fun x => x.userId == u)).map (fun x => (x.restId, x.rating))

/-- The paired rating vectors of u and v over their common restaurants, in
the order of v's rows: (u's rating, v's rating). -/
def commonVectors (data : List RatingRow) (u v : Nat) : List (ℚ × ℚ) :=
  (data.filter (fun x => x.userId == v)).filterMap
    (fun x => (alookup (userRestList data u) x.restId).map (fun ru => (ru, x.rating)))

/-- _find_similar_taste_users: among users sharing a rated restaurant with
the target, keep those with at least 3 common restaurants and cosine
similarity above 0.3 over the common vectors, sorted by similarity
descending, truncated to the limit.  The cosine is the argument cos. -/
def findSimilarTasteUsers (cos : List ℚ → List ℚ → ℚ) (data : List RatingRow)
    (u : Nat) (limit : Nat) : List (Nat × ℚ) :=
  if (userRestList data u).isEmpty then []
  else
    let others := dedupFirst ((data.filter (fun x =>
        x.userId != u && (alookup (userRestList data u) x.restId).isSome)).map
          (fun x => x.userId))
    let sims := others.filterMap (fun v =>
      if 3 ≤ (commonVectors data u v).length then
        if 3 / 10 < cos ((commonVectors data u v).map (fun p => p.1))
            ((commonVectors data u v).map (fun p => p.2)) then
          some (v, cos ((commonVectors data u v).map (fun p => p.1))
            ((commonVectors data u v).map (fun p => p.2)))
        else none
      else none)
    (sims.insertionSort scoreGe).take limit

/-- Social-proof score of ONE restaurant, as _social_proof_weighting
computes it: mean of rating * similarity over the similar users' ratings of
that restaurant, divided by 5, times count/10 — the count factor is NOT
capped at 1 in the source. -/
def socialScoreOf (simUsers : List (Nat × ℚ)) (data : List RatingRow)
    (r : Restaurant) : ℚ :=
  let rows := data.filter (fun x => x.restId == r.id && (alookup simUsers x.userId).isSome)
  if rows.isEmpty then 0
  else (mean (rows.map (fun x => x.rating * (alookup simUsers x.userId).getD 0)) / 5) *
    ((rows.length : ℚ) / 10)

/-- _social_proof_weighting over the restaurant frame. -/
def socialProofScores (simUsers : List (Nat × ℚ)) (data : List RatingRow)
    (rests : List Restaurant) : List (Nat × ℚ) :=
  rests.map (fun r => (r.id, socialScoreOf simUsers data r))

/-- Social-proof score of one restaurant as the specification words it,
with the confidence factor capped: mean(rating * similarity)/5 *
min(count/10, 1).  This definition follows the words of the claim and is
compared against socialScoreOf, which follows the source. -/
def socialScoreSpecOf (simUsers : List (Nat × ℚ)) (data : List RatingRow)
    (r : Restaurant) : ℚ :=
  let rows := data.filter (fun x => x.restId == r.id && (alookup simUsers x.userId).isSome)
  if rows.isEmpty then 0
  else (mean (rows.map (fun x => x.rating * (alookup simUsers x.userId).getD 0)) / 5) *
    min ((rows.length : ℚ) / 10) 1

/-- _apply_temporal_decay: from the user's joined ratings of the last 180
days, the restaurant score blends the mean decayed rating of its cuisine
(weight 0.6, only for a nonempty cuisine string, Python truthiness) and of
its price level (weight 0.4); all zero when there are no recent ratings.
The decay exp(-days/30) is the argument d30. -/
def temporalScores (d30 : Int → ℚ) (db : DB) (rests : List Restaurant) (u : Nat) :
    List (Nat × ℚ) :=
  let recent := (userJoinedRows db u).filter (fun p => p.1.daysAgo < 180)
  if recent.isEmpty then rests.map (fun r => (r.id, 0))
  else
    rests.map (fun r =>
      let cvals := (recent.filter (fun p => p.2.cuisine != "" && p.2.cuisine == r.cuisine)).map
        (fun p => p.1.rating * d30 p.1.daysAgo)
      let pvals := (recent.filter (fun p => p.2.price == r.price)).map
        (fun p => p.1.rating * d30 p.1.daysAgo)
      (r.id, (if cvals.isEmpty then 0 else (mean cvals / 5) * (6 / 10)) +
             (if pvals.isEmpty then 0 else (mean pvals / 5) * (4 / 10))))

/-- Dynamic blend weights of _hybrid_scoring (collaborative, content,
social, temporal). -/
def hybridWeights (p : UserProfile) : ℚ × ℚ × ℚ × ℚ :=
  if p.totalRatings < 5 then (1 / 10, 4 / 10, 4 / 10, 1 / 10)
  else if 7 / 10 < p.explorationRatio then (3 / 10, 4 / 10, 2 / 10, 1 / 10)
  else (4 / 10, 3 / 10, 2 / 10, 1 / 10)

/-- _hybrid_scoring: the union of all scored restaurant ids, each blended
with the dynamic weights, a missing map entry contributing 0. -/
def hybridScoring (collab content social temporal : List (Nat × ℚ)) (p : UserProfile) :
    List (Nat × ℚ) :=
  let w := hybridWeights p
  let ids := dedupFirst (collab.map (fun x => x.1) ++ content.map (fun x => x.1) ++
    social.map (fun x => x.1) ++ temporal.map (fun x => x.1))
  ids.map (fun i =>
    (i, (alookup collab i).getD 0 * w.1 + (alookup content i).getD 0 * w.2.1 +
        (alookup social i).getD 0 * w.2.2.1 + (alookup temporal i).getD 0 * w.2.2.2))

/-- Squared planar distance in coordinate degrees; the source compares
sqrt of this quantity against 0.01, 0.05 and 0.1, which is equivalent to
comparing this square against their squares. -/
def distSq (a b : ℚ × ℚ) : ℚ := (a.1 - b.1) ^ 2 + (a.2 - b.2) ^ 2

/-- The distance-bucket boost of _apply_location_filter, on the squared
distance. -/
def locationBoost (dsq : ℚ) : ℚ :=
  if dsq < 1 / 10000 then 12 / 10
  else if dsq < 25 / 10000 then 1
  else if dsq < 1 / 100 then 8 / 10
  else 3 / 10

/-- Row lookup restaurants[restaurants.id == rid].iloc[0].  The source
raises when the id is absent; the default-returning total model is only
ever applied to ids drawn from the frame itself. -/
def getRestaurant (rests : List Restaurant) (rid : Nat) : Restaurant :=
  ((rests.find? (fun r => r.id == rid)).getD default)

/-- _apply_location_filter multiplies every score by its distance boost. -/
def applyLocationFilter (scores : List (Nat × ℚ)) (loc : ℚ × ℚ)
    (rests : List Restaurant) : List (Nat × ℚ) :=
  scores.map (fun p =>
    let r := getRestaurant rests p.1
    (p.1, p.2 * locationBoost (distSq loc (r.lat, r.lng))))

/-- Greedy walk of _enhance_diversity over the score-sorted candidates:
stop at the limit, accept a candidate only while its cuisine has been
selected fewer than max(2, limit/4) times and its price level fewer than
max(2, limit/3) times. -/
def diversityGo (rests : List Restaurant) (limit : Nat) :
    List (Nat × ℚ) → List Nat → List Nat
  | [], sel => sel
  | x :: rest, sel =>
    if limit ≤ sel.length then sel
    else
      let r := getRestaurant rests x.1
      if sel.countP (fun i => (getRestaurant rests i).cuisine == r.cuisine) <
            max 2 (limit / 4) ∧
          sel.countP (fun i => (getRestaurant rests i).price == r.price) <
            max 2 (limit / 3) then
        diversityGo rests limit rest (sel ++ [x.1])
      else diversityGo rests limit rest sel

/-- _enhance_diversity: sort by score descending and select greedily. -/
def enhanceDiversity (scores : List (Nat × ℚ)) (rests : List Restaurant)
    (limit : Nat) : List Nat :=
  diversityGo rests limit (scores.insertionSort scoreGe) []

/-- Live rating count of a restaurant, the correlated COUNT(*) subquery of
the cold-start SQL. -/
def ratingCountOf (db : DB) (rid : Nat) : Nat :=
  (db.ratings.filter (fun x => x.restId == rid)).length

/-- Cold-start SQL ordering: avg_rating descending, then rating_count
descending. -/
def popLe (db : DB) (a b : Restaurant) : Prop :=
  b.avgRating < a.avgRating ∨
    (a.avgRating = b.avgRating ∧ ratingCountOf db b.id ≤ ratingCountOf db a.id)

instance (db : DB) : DecidableRel (popLe db) := fun a b => by
  unfold popLe; infer_instance

/-- Cold-start location re-ordering: distance ascending, then avg_rating
descending (pandas sort_values(["distance", "avg_rating"],
ascending=[True, False])); distance ties are exactly squared-distance ties. -/
def distRatingLe (loc : ℚ × ℚ) (a b : Restaurant) : Prop :=
  distSq loc (a.lat, a.lng) < distSq loc (b.lat, b.lng) ∨
    (distSq loc (a.lat, a.lng) = distSq loc (b.lat, b.lng) ∧ b.avgRating ≤ a.avgRating)

instance (loc : ℚ × ℚ) : DecidableRel (distRatingLe loc) := fun a b => by
  unfold distRatingLe; infer_instance

/-- _cold_start_recommendations: active restaurants with avg_rating at
least 4.0, ordered by rating then live rating count, truncated to twice the
limit by the SQL LIMIT; when a location is given the page is re-sorted by
distance then rating; the first limit ids are returned. -/
def coldStartRecommendations (db : DB) (limit : Nat) (loc : Option (ℚ × ℚ)) : List Nat :=
  let qual := db.restaurants.filter (fun r => r.active && decide (4 ≤ r.avgRating))
  let top := (qual.insertionSort (popLe db)).take (2 * limit)
  let ordered := match loc with
    | none => top
    | some l => top.insertionSort (distRatingLe l)
  (ordered.take limit).map (fun r => r.id)

/-- The transcendental helpers consumed by the advanced pipeline: the
90-day and 30-day exponential decays and the sklearn cosine. -/
structure RealFns where
  d90 : Int → ℚ
  d30 : Int → ℚ
  cos : List ℚ → List ℚ → ℚ

/-- get_personalized_recommendations: cold start without a profile,
otherwise the four scoring passes over the active restaurants, hybrid
blending, the optional location boost and diversity selection. -/
def getPersonalizedRecommendations (fns : RealFns) (db : DB) (u : Nat)
    (limit : Nat) (loc : Option (ℚ × ℚ)) : List Nat :=
  match buildUserProfile? fns.d90 db u with
  | none => coldStartRecommendations db limit loc
  | some p =>
    let rests := db.restaurants.filter (fun r => r.active)
    let collab := collaborativeFiltering fns.cos db.ratings u
    let content := contentBasedFiltering p rests
    let social := socialProofScores (findSimilarTasteUsers fns.cos db.ratings u 50)
      db.ratings rests
    let temporal := temporalScores fns.d30 db rests u
    let final := hybridScoring collab content social temporal p
    let final2 := match loc with
      | none => final
      | some l => applyLocationFilter final l rests
    enhanceDiversity final2 rests limit

/-- Concrete database refuting the content and final-output parts of C1:
users 1 and 2 each rated restaurants 10, 11 and 12 with 5 stars today. -/
def dbC1 : DB :=
  { ratings := [⟨1, 10, 5, 0⟩, ⟨1, 11, 5, 0⟩, ⟨1, 12, 5, 0⟩,
                ⟨2, 10, 5, 0⟩, ⟨2, 11, 5, 0⟩, ⟨2, 12, 5, 0⟩],
    restaurants := [⟨10, "thai", 2, 4, 0, 0, [], true⟩,
                    ⟨11, "thai", 2, 4, 0, 0, [], true⟩,
                    ⟨12, "thai", 2, 4, 0, 0, [], true⟩],
    bubblePrefs := [] }

/-- Transcendental helpers instantiated for dbC1: every rating there is 0
days old, where both exponential decays are exactly exp 0 = 1, and every
vector pair handed to the cosine consists of two copies of [5, 5, 5], whose
cosine is exactly 1 (certified by the IsCosineVal conjunct of the
counterexample). -/
def fnsC1 : RealFns := ⟨fun _ => 1, fun _ => 1, fun _ _ => 1⟩

/-- The profile the advanced engine builds for user 1 of dbC1. -/
def profC1 : UserProfile :=
  { userId := 1,
    cuisinePrefs := [("thai", 13 / 10)],
    pricePrefs := [(2, { avgRating := 5, count := 3, prefScore := 3 / 5 })],
    qualityStandards := 1,
    bubblePrefs := [],
    explorationRatio := 1 / 3,
    totalRatings := 3,
    avgPersonalRating := 5 }

/-! ## Cold start (advanced_recommendation.py, _cold_start_recommendations) -/

/-- The cold-start ordering as the claim words it: avg_rating descending,
then rating count descending, then optionally by distance.  This definition
follows the words of the claim and is compared against
coldStartRecommendations, which follows the source (where a given location
re-sorts by distance FIRST, then rating). -/
def specPopLe (db : DB) (loc : Option (ℚ × ℚ)) (a b : Restaurant) : Prop :=
  b.avgRating < a.avgRating ∨
    (a.avgRating = b.avgRating ∧
      (ratingCountOf db b.id < ratingCountOf db a.id ∨
        (ratingCountOf db a.id = ratingCountOf db b.id ∧
          loc.elim True (fun l => distSq l (a.lat, a.lng) ≤ distSq l (b.lat, b.lng)))))

instance (db : DB) (loc : Option (ℚ × ℚ)) : DecidableRel (specPopLe db loc) :=
  fun a b => by
    unfold specPopLe
    cases loc with
    | none => simp only [Option.elim]; infer_instance
    | some l => simp only [Option.elim]; infer_instance

/-- Cold-start output ordered as the claim words it. -/
def coldStartSpecList (db : DB) (limit : Nat) (loc : Option (ℚ × ℚ)) : List Nat :=
  (((db.restaurants.filter (fun r => r.active && decide (4 ≤ r.avgRating))).insertionSort
      (specPopLe db loc)).take limit).map (fun r => r.id)

/-- Concrete database refuting the ordering part of C6: restaurant 1 is
better rated but far from the query point, restaurant 2 slightly worse
rated but at the query point; the querying user 7 has no ratings. -/
def dbC6 : DB :=
  { ratings := [],
    restaurants := [⟨1, "thai", 2, 5, 10, 0, [], true⟩,
                    ⟨2, "sushi", 2, 9 / 2, 0, 0, [], true⟩],
    bubblePrefs := [] }

instance (db : DB) : IsTotal Restaurant (popLe db) := by
  constructor
  intro a b
  rcases lt_trichotomy a.avgRating b.avgRating with h | h | h
  · exact Or.inr (Or.inl h)
  · rcases Nat.le_total (ratingCountOf db b.id) (ratingCountOf db a.id) with h2 | h2
    · exact Or.inl (Or.inr ⟨h, h2⟩)
    · exact Or.inr (Or.inr ⟨h.symm, h2⟩)
  · exact Or.inl (Or.inl h)

instance (db : DB) : IsTrans Restaurant (popLe db) := by
  constructor
  intro a b c hab hbc
  rcases hab with h1 | ⟨h1, h2⟩ <;> rcases hbc with h3 | ⟨h3, h4⟩
  · exact Or.inl (lt_trans h3 h1)
  · exact Or.inl (h3 ▸ h1)
  · exact Or.inl (by rw [h1]; exact h3)
  · exact Or.inr ⟨h1.trans h3, le_trans h4 h2⟩

/-! ## Social proof (advanced_recommendation.py, _social_proof_weighting) -/

/-- Constant stand-in for the cosine on dataC3: every vector pair the
lightweight similarity search evaluates there consists of two copies of
[5, 5, 5], whose cosine is exactly 1 (certified by the IsCosineVal conjunct
of the counterexample). -/
def cosOne : List ℚ → List ℚ → ℚ := fun _ _ => 1

/-- Concrete data refuting the capped C3 formula: target user 0 rated
restaurants 1, 2, 3; users 1..11 rated the same three restaurants
identically and also restaurant 99, giving 11 contributing similar-user
ratings for restaurant 99. -/
def dataC3 : List RatingRow :=
  [⟨0, 1, 5, 0⟩, ⟨0, 2, 5, 0⟩, ⟨0, 3, 5, 0⟩] ++
    (List.range 11).flatMap
      (fun k => [⟨k + 1, 1, 5, 0⟩, ⟨k + 1, 2, 5, 0⟩, ⟨k + 1, 3, 5, 0⟩, ⟨k + 1, 99, 5, 0⟩])

/-- The candidate restaurant of the C3 counterexample. -/
def restC3 : Restaurant := ⟨99, "thai", 2, 4, 0, 0, [], true⟩

/-! ## Live request path (recommendation.py, RecommendationEngine)

get_recommendations resolves the user location, consults the Redis cache,
gathers distance- and filter-restricted candidates, scores each, sorts by
score and truncates, formats, and writes the result back to the cache with
a 1800-second TTL.  Every cache read and write is wrapped: a missing
client, a read error or a write error all leave the computed result
untouched.  The geodesic distance (geopy, in km) and numpy log are the
arguments dist and plog; output records carry the id, score and distance
(the remaining formatted fields copy restaurant columns verbatim and the
reasoning string, which no claim constrains). -/

/-- Restaurant row as read by the live engine (stored aggregate columns,
unlike the advanced engine's correlated count). -/
structure LiveRestaurant where
  id : Nat
  cuisine : String
  price : Nat
  avgRating : ℚ
  googleRating : Option ℚ
  ratingCount : Nat
  lat : ℚ
  lng : ℚ
  active : Bool
deriving DecidableEq

/-- The live engine reads of the user row: identifier and stored
preference lists (empty list modelling a NULL/empty value, both falsy). -/
structure LiveUser where
  id : Nat
  prefCuisines : List String
  prefPrices : List Nat
deriving DecidableEq

/-- The store consumed by the live engine. -/
structure LiveDB where
  ratings : List RatingRow
  restaurants : List LiveRestaurant
deriving DecidableEq

/-- user_rating_dict: restaurant id to the user's rating. -/
def userRatingDict (db : LiveDB) (uid : Nat) : List (Nat × ℚ) :=
  (db.ratings.filter (fun x => x.userId == uid)).map (fun x => (x.restId, x.rating))

/-- _calculate_user_similarity: cosine over the common-restaurant rating
vectors, 0 with fewer than 2 common restaurants, clamped below at 0. -/
def liveUserSimilarity (cos : List ℚ → List ℚ → ℚ)
    (d1 d2 : List (Nat × ℚ)) : ℚ :=
  if ((dedupFirst (d1.map (fun p => p.1))).filter
      (fun k => (alookup d2 k).isSome)).length < 2 then 0
  else
    max 0 (cos
      (((dedupFirst (d1.map (fun p => p.1))).filter
        (fun k => (alookup d2 k).isSome)).map (fun k => (alookup d1 k).getD 0))
      (((dedupFirst (d1.map (fun p => p.1))).filter
        (fun k => (alookup d2 k).isSome)).map (fun k => (alookup d2 k).getD 0)))

/-- _calculate_content_score: 0.5 for a preferred cuisine, 0.3 for a
preferred price level, guarded by Python truthiness of both sides. -/
def calculateContentScoreLive (user : LiveUser) (r : LiveRestaurant) : ℚ :=
  (if user.prefCuisines ≠ [] ∧ r.cuisine ≠ "" ∧ r.cuisine ∈ user.prefCuisines
   then 1 / 2 else 0) +
  (if user.prefPrices ≠ [] ∧ r.price ≠ 0 ∧ r.price ∈ user.prefPrices
   then 3 / 10 else 0)

/-- _calculate_collaborative_score: similarity-weighted average of the
ratings on this restaurant from users positively similar to the target,
times 0.4; 0 without a rating history, with fewer than 2 ratings on the
restaurant, or without any positively similar rater. -/
def calculateCollaborativeScoreLive (cos : List ℚ → List ℚ → ℚ) (db : LiveDB)
    (user : LiveUser) (r : LiveRestaurant) (udict : List (Nat × ℚ)) : ℚ :=
  if udict.isEmpty then 0
  else if (db.ratings.filter (fun x => x.restId == r.id)).length < 2 then 0
  else
    let sims := (db.ratings.filter (fun x => x.restId == r.id)).filterMap (fun x =>
      if 0 < liveUserSimilarity cos udict (userRatingDict db x.userId) then
        some (liveUserSimilarity cos udict (userRatingDict db x.userId), x.rating)
      else none)
    if sims.isEmpty then 0
    else if (sims.map (fun p => p.1)).sum = 0 then 0
    else ((sims.map (fun p => p.1 * p.2)).sum / (sims.map (fun p => p.1)).sum) * (4 / 10)

/-- _calculate_restaurant_score: 0.0 outright for a restaurant the user
has already rated; otherwise base rating terms plus collaborative, content
and popularity components, capped at 5. -/
def calculateRestaurantScoreLive (cos : List ℚ → List ℚ → ℚ) (plog : Nat → ℚ)
    (db : LiveDB) (user : LiveUser) (r : LiveRestaurant)
    (udict : List (Nat × ℚ)) : ℚ :=
  if (alookup udict r.id).isSome then 0
  else
    min ((if 0 < r.avgRating then r.avgRating * (3 / 10) else 0) +
      (match r.googleRating with
       | some g => if g = 0 then 0 else g * (2 / 10)
       | none => 0) +
      calculateCollaborativeScoreLive cos db user r udict +
      calculateContentScoreLive user r +
      (if 0 < r.ratingCount then min (plog r.ratingCount * (1 / 10)) (1 / 2) else 0)) 5

/-- _get_candidate_restaurants: active, matching the optional cuisine and
price filters, within max_distance of the query point. -/
def getCandidateRestaurants (dist : ℚ × ℚ → ℚ × ℚ → ℚ) (db : LiveDB)
    (lat lng maxD : ℚ) (cf : List String) (pf : List Nat) : List LiveRestaurant :=
  ((db.restaurants.filter (fun r => r.active)).filter (fun r =>
      (cf.isEmpty || decide (r.cuisine ∈ cf)) && (pf.isEmpty || decide (r.price ∈ pf)))).filter
    (fun r => decide (dist (lat, lng) (r.lat, r.lng) ≤ maxD))

/-- One formatted recommendation: restaurant id, score and distance. -/
structure RecEntry where
  restId : Nat
  score : ℚ
  distance : ℚ
deriving DecidableEq

/-- Descending order on scored entries. -/
def entryGe (a b : RecEntry) : Prop := b.score ≤ a.score

instance : DecidableRel entryGe := fun a b => inferInstanceAs (Decidable (b.score ≤ a.score))

/-- The scored candidate list built by get_recommendations before sorting
and truncation; no candidate is removed, whatever its score. -/
def scoredCandidates (cos : List ℚ → List ℚ → ℚ) (plog : Nat → ℚ)
    (dist : ℚ × ℚ → ℚ × ℚ → ℚ) (db : LiveDB) (user : LiveUser)
    (lat lng maxD : ℚ) (cf : List String) (pf : List Nat) : List RecEntry :=
  (getCandidateRestaurants dist db lat lng maxD cf pf).map (fun r =>
    { restId := r.id,
      score := calculateRestaurantScoreLive cos plog db user r (userRatingDict db user.id),
      distance := dist (lat, lng) (r.lat, r.lng) })

/-- The uncached pipeline of get_recommendations: empty candidate set
short-circuits, otherwise sort by score descending and truncate. -/
def computeRecommendationsLive (cos : List ℚ → List ℚ → ℚ) (plog : Nat → ℚ)
    (dist : ℚ × ℚ → ℚ × ℚ → ℚ) (db : LiveDB) (user : LiveUser)
    (lat lng maxD : ℚ) (cf : List String) (pf : List Nat) (limit : Nat) :
    List RecEntry :=
  if (getCandidateRestaurants dist db lat lng maxD cf pf).isEmpty then []
  else ((scoredCandidates cos plog dist db user lat lng maxD cf pf).insertionSort
    entryGe).take limit

/-- The observable state of the cache consultation: no client (the Redis
connection failed at startup), a read error (redis.RedisError or bad
JSON, both swallowed), a miss, or a hit. -/
inductive CacheView (α : Type) where
  | unavailable : CacheView α
  | readError : CacheView α
  | miss : CacheView α
  | hit : α → CacheView α
deriving DecidableEq

/-- get_recommendations: only a cache hit short-circuits; every other
cache state falls through to the uncached pipeline (writes are also
wrapped and cannot alter the returned value). -/
def getRecommendationsLive (cos : List ℚ → List ℚ → ℚ) (plog : Nat → ℚ)
    (dist : ℚ × ℚ → ℚ × ℚ → ℚ) (db : LiveDB) (user : LiveUser)
    (lat lng maxD : ℚ) (cf : List String) (pf : List Nat) (limit : Nat)
    (cache : CacheView (List RecEntry)) : List RecEntry :=
  match cache with
  | CacheView.hit v => v
  | _ => computeRecommendationsLive cos plog dist db user lat lng maxD cf pf limit

/-- The TTL of the cache write, redis setex(key, 1800, ...). -/
def cacheTTLSeconds : Nat := 1800

/-- Three-digit zero padding of the fractional part. -/
def pad3 (n : Nat) : String :=
  if n < 10 then "00" ++ toString n
  else if n < 100 then "0" ++ toString n
  else toString n

/-- Fixed three-decimal rendering of a rational, modelling the Python
format specifier .3f by exact rounding of q * 1000 (the float formatter
rounds the same value up to its half-ulp tie behaviour, immaterial to the
key-derivation property proved here). -/
def fmt3 (q : ℚ) : String :=
  if round (q * 1000) < 0 then
    "-" ++ toString ((round (q * 1000)).natAbs / 1000) ++ "." ++
      pad3 ((round (q * 1000)).natAbs % 1000)
  else
    toString ((round (q * 1000)).natAbs / 1000) ++ "." ++
      pad3 ((round (q * 1000)).natAbs % 1000)

/-- _get_cache_key: user id, both coordinates to three decimals, max
distance, the sorted cuisine filter, the sorted price filter and the
limit, colon-separated. -/
def getCacheKey (uid : Nat) (lat lng maxD : ℚ) (cf : List String)
    (pf : List Nat) (limit : Nat) : String :=
  "rec:" ++ toString uid ++ ":" ++ fmt3 lat ++ ":" ++ fmt3 lng ++ ":" ++
    toString maxD ++ ":" ++
    (if cf.isEmpty then "" else String.intercalate "," (cf.insertionSort (· ≤ ·))) ++
    ":" ++
    (if pf.isEmpty then ""
     else String.intercalate "," ((pf.insertionSort (· ≤ ·)).map toString)) ++
    ":" ++ toString limit

/-- Concrete live database for C10: user 7 rated restaurant 1; restaurant
2 is unrated with average rating 4 and no stored google rating; both
restaurants sit at the query point (geodesic distance 0). -/
def dbC10 : LiveDB :=
  { ratings := [⟨7, 1, 5, 0⟩],
    restaurants := [⟨1, "thai", 2, 5, none, 1, 0, 0, true⟩,
                    ⟨2, "sushi", 2, 4, none, 0, 0, 0, true⟩] }

/-- The querying user of dbC10, with no stored preferences. -/
def userC10 : LiveUser := ⟨7, [], []⟩

/-- Geodesic distance instantiated for dbC10: every pair of points handed
to it coincides, where the true geodesic distance is exactly 0 km. -/
def distZero : ℚ × ℚ → ℚ × ℚ → ℚ := fun _ _ => 0

/-- Logarithm stand-in for dbC10; no candidate there has a positive
rating count on the unrated path, so the value is never consumed. -/
def plogZero : Nat → ℚ := fun _ => 0

/-! ## Theorems -/

/-- Membership is preserved by dedupFirst. -/
theorem mem_dedupFirst {α : Type} [DecidableEq α] (a : α) :
    ∀ l : List α, a ∈ dedupFirst l ↔ a ∈ l := by
  intro l
  induction l using dedupFirst.induct with
  | case1 => simp [dedupFirst]
  | case2 x xs ih =>
    rw [dedupFirst]
    constructor
    · intro h
      rcases List.mem_cons.mp h with h | h
      · exact h ▸ List.mem_cons_self _ _
      · exact List.mem_cons_of_mem _ (List.mem_filter.mp (ih.mp h)).1
    · intro h
      rcases List.mem_cons.mp h with h | h
      · exact h ▸ List.mem_cons_self _ _
      · by_cases hax : a = x
        · exact hax ▸ List.mem_cons_self _ _
        · exact List.mem_cons_of_mem _ (ih.mpr (List.mem_filter.mpr ⟨h, by simpa using hax⟩))

/-- A list of nonnegative rationals with one positive member has positive sum. -/
theorem sum_pos_of_mem_pos {l : List ℚ} (h0 : ∀ x ∈ l, 0 ≤ x) {x : ℚ}
    (hx : x ∈ l) (hp : 0 < x) : 0 < l.sum := by
  induction l with
  | nil => simp at hx
  | cons a t ih =>
    rcases List.mem_cons.mp hx with h1 | h2
    · subst h1
      have ht : 0 ≤ t.sum := List.sum_nonneg (fun y hy => h0 y (List.mem_cons_of_mem _ hy))
      simpa using add_pos_of_pos_of_nonneg hp ht
    · have ha : 0 ≤ a := h0 a (List.mem_cons_self _ _)
      have ht : 0 < t.sum := ih (fun y hy => h0 y (List.mem_cons_of_mem _ hy)) h2
      simpa using add_pos_of_nonneg_of_pos ha ht

/-- The mean of a nonempty list of positive rationals is positive. -/
theorem mean_pos {l : List ℚ} (hne : l ≠ []) (h : ∀ x ∈ l, 0 < x) : 0 < mean l := by
  have hs : 0 < l.sum := by
    rcases l with _ | ⟨a, t⟩
    · exact absurd rfl hne
    · exact sum_pos_of_mem_pos (fun y hy => le_of_lt (h y hy)) (List.mem_cons_self a t)
        (h a (List.mem_cons_self a t))
  have hl : 0 < (l.length : ℚ) := by
    have : 0 < l.length := List.length_pos.mpr hne
    exact_mod_cast this
  exact div_pos hs hl

/-- Dot product of two images of the same index list is the sum of the
pointwise products. -/
theorem dotp_map_map {α : Type} (f g : α → ℚ) :
    ∀ l : List α, dotp (l.map f) (l.map g) = (l.map (fun x => f x * g x)).sum := by
  intro l
  induction l with
  | nil => simp [dotp]
  | cons a t ih => simp [dotp, ih]

/-- C7: for every candidate user set the cluster count used by the Cluster
Manager equals max(2, min(20, floor(active_user_count / 10))); in particular
45 active users give 4 clusters. -/
theorem c7_cluster_count_formula :
    (∀ n : Nat, nClusters n = max 2 (min 20 (n / 10))) ∧ nClusters 45 = 4 := by
  constructor
  · intro n
    simp only [nClusters]
    omega
  · decide

/-- C8 counterexample: with exactly one rating in the last 60 days and one
older rating, both sides are nonempty, so the claimed formula gives
5 - 3 = 2, but the source computes 0 because it requires at least two
recent ratings before it computes the difference. -/
theorem c8_counterexample :
    recentTrend rowsC8 = 0 ∧ recentTrendSpec rowsC8 = 2 ∧
      recentTrend rowsC8 ≠ recentTrendSpec rowsC8 := by
  refine ⟨?_, ?_, ?_⟩ <;>
    norm_num [recentTrend, recentTrendSpec, recentRows, oldRows, rowsC8, mean]

/-- C8 amended: recent_trend equals the claimed mean difference except when
there is exactly one rating in the last 60 days, in which case the source
returns 0 even though both sides are nonempty; the trend field of every
computed weighted-rating cell is exactly recentTrend. -/
theorem c8_trend_amended (rows : List ClusterRatingRow) :
    ((recentRows rows).length = 1 → recentTrend rows = 0) ∧
    ((recentRows rows).length ≠ 1 → recentTrend rows = recentTrendSpec rows) ∧
    (∀ (timeW : Int → ℚ) (cell : WeightedCell),
        calculateWeightedRating timeW rows = some cell → cell.trend = recentTrend rows) := by
  refine ⟨?_, ?_, ?_⟩
  · intro h1
    rw [recentTrend, if_neg]
    omega
  · intro hne
    by_cases hr : (recentRows rows).length = 0
    · rw [recentTrend, if_neg (by omega), recentTrendSpec, if_pos (Or.inl hr)]
    · have h2 : 2 ≤ (recentRows rows).length := by omega
      by_cases ho : (oldRows rows).length = 0
      · rw [recentTrend, if_neg (by omega), recentTrendSpec, if_pos (Or.inr ho)]
      · rw [recentTrend, if_pos ⟨h2, ho⟩, recentTrendSpec, if_neg (by omega)]
  · intro timeW cell hcell
    rw [calculateWeightedRating] at hcell
    by_cases hempty : rows.isEmpty
    · rw [if_pos hempty] at hcell
      exact absurd hcell (by simp)
    · rw [if_neg hempty] at hcell
      simp only [Option.some.injEq] at hcell
      rw [← hcell]

/-- C8 witness: the amended theorem applied at the concrete two-row input,
discharging its hypotheses there. -/
theorem c8_trend_amended_witness : recentTrend rowsC8 = 0 :=
  (c8_trend_amended rowsC8).1 (by norm_num [recentRows, rowsC8])

/-- Every element of updateFirst p f l is an element of l or the image
under f of an element of l satisfying p. -/
theorem mem_updateFirst {α : Type} (p : α → Bool) (f : α → α) (e : α) :
    ∀ l : List α, e ∈ updateFirst p f l → e ∈ l ∨ ∃ x ∈ l, p x = true ∧ e = f x := by
  intro l
  induction l with
  | nil => simp [updateFirst]
  | cons a t ih =>
    intro h
    rw [updateFirst] at h
    by_cases hp : p a
    · rw [if_pos hp] at h
      rcases List.mem_cons.mp h with h1 | h1
      · exact Or.inr ⟨a, List.mem_cons_self _ _, hp, h1⟩
      · exact Or.inl (List.mem_cons_of_mem _ h1)
    · rw [if_neg hp] at h
      rcases List.mem_cons.mp h with h1 | h1
      · exact Or.inl (h1 ▸ List.mem_cons_self _ _)
      · rcases ih h1 with h2 | ⟨x, hx, hpx, hex⟩
        · exact Or.inl (List.mem_cons_of_mem _ h2)
        · exact Or.inr ⟨x, List.mem_cons_of_mem _ hx, hpx, hex⟩

/-- upsertSimilarity preserves the edge invariant. -/
theorem upsertSimilarity_inv (rs ps : List ((Nat × Nat) × ℚ)) (pair : Nat × Nat)
    (store : List SimEdge) (hst : ∀ e ∈ store, EdgeInv e) :
    ∀ e ∈ upsertSimilarity rs ps pair store, EdgeInv e := by
  intro e he
  rw [upsertSimilarity] at he
  by_cases hov : 15 / 100 <
      (alookup rs pair).getD 0 * (7 / 10) + (alookup ps pair).getD 0 * (3 / 10)
  · rw [if_pos hov] at he
    by_cases hex : store.any (edgeMatches pair.1 pair.2)
    · rw [if_pos hex] at he
      rcases mem_updateFirst _ _ _ _ he with h1 | ⟨x, _, _, hx⟩
      · exact hst e h1
      · subst hx
        exact ⟨hov, rfl⟩
    · rw [if_neg hex] at he
      rcases List.mem_append.mp he with h1 | h1
      · exact hst e h1
      · rcases List.mem_singleton.mp h1 with rfl
        exact ⟨hov, rfl⟩
  · rw [if_neg hov] at he
    exact hst e he

/-- Folding upsertSimilarity over any pair list preserves the invariant. -/
theorem foldl_upsert_inv (rs ps : List ((Nat × Nat) × ℚ)) :
    ∀ (pairs : List (Nat × Nat)) (store : List SimEdge),
      (∀ e ∈ store, EdgeInv e) →
      ∀ e ∈ pairs.foldl (fun st pair => upsertSimilarity rs ps pair st) store, EdgeInv e := by
  intro pairs
  induction pairs with
  | nil => intro store hst e he; exact hst e he
  | cons a t ih =>
    intro store hst e he
    exact ih (upsertSimilarity rs ps a store) (upsertSimilarity_inv rs ps a store hst) e he

/-- C4: if every edge of the store satisfies the invariant before the batch
store step runs (the step is the sole writer, so this holds inductively
from an empty store), then after the run every stored edge has
overall_similarity strictly above 0.15 and equal to
0.7 * rating_similarity + 0.3 * preference_similarity, absent components
entering as 0.0. -/
theorem c4_store_invariant (rs ps : List ((Nat × Nat) × ℚ)) (store : List SimEdge)
    (hst : ∀ e ∈ store, EdgeInv e) :
    ∀ e ∈ storeCombinedSimilarities rs ps store, EdgeInv e := by
  intro e he
  rw [storeCombinedSimilarities] at he
  refine foldl_upsert_inv rs ps (pairKeys rs ps)
    (store.filter (fun e => ¬ 7 < e.lastComputedAge)) ?_ e he
  intro x hx
  exact hst x (List.mem_filter.mp hx).1

/-- C4 witness: one run from the empty store, with a single rating
similarity of 1/2 and no preference similarity, stores the edge
(1, 2, 1/2, 0, 7/20, 0), and the invariant theorem applies to it. -/
theorem c4_store_invariant_witness :
    EdgeInv { user1 := 1, user2 := 2, ratingSim := 1 / 2, prefSim := 0,
              overallSim := 7 / 20, lastComputedAge := 0 } :=
  c4_store_invariant [((1, 2), 1 / 2)] [] [] (by simp)
    { user1 := 1, user2 := 2, ratingSim := 1 / 2, prefSim := 0,
      overallSim := 7 / 20, lastComputedAge := 0 }
    (by norm_num [storeCombinedSimilarities, pairKeys, dedupFirst, upsertSimilarity,
      alookup, edgeMatches, List.find?])

/-- An unrated cell of the zero-filled matrix is 0. -/
theorem userItemVal_eq_zero {d : List RatingRow} {u r : Nat}
    (h : ratedBy d u r = false) : userItemVal d u r = 0 := by
  rw [userItemVal]
  have hnil : d.filter (fun x => x.userId == u && x.restId == r) = [] := by
    rw [List.filter_eq_nil_iff]
    intro x hx hb
    have : d.any (fun x => x.userId == u && x.restId == r) = true :=
      List.any_eq_true.mpr ⟨x, hx, hb⟩
    rw [ratedBy] at h
    rw [h] at this
    exact absurd this (by simp)
  rw [hnil]
  simp

/-- A rated cell of the matrix is positive when all ratings are positive. -/
theorem userItemVal_pos {d : List RatingRow} {u r : Nat}
    (hpos : ∀ x ∈ d, 0 < x.rating) (h : ratedBy d u r = true) :
    0 < userItemVal d u r := by
  rw [userItemVal]
  obtain ⟨x, hx, hb⟩ := List.any_eq_true.mp h
  have hxf : x ∈ d.filter (fun x => x.userId == u && x.restId == r) :=
    List.mem_filter.mpr ⟨hx, hb⟩
  have hmem : x.rating ∈ (d.filter (fun x => x.userId == u && x.restId == r)).map
      (fun x => x.rating) := List.mem_map_of_mem _ hxf
  have hne : (d.filter (fun x => x.userId == u && x.restId == r)).map
      (fun x => x.rating) ≠ [] := List.ne_nil_of_mem hmem
  rw [if_neg (by simpa [List.isEmpty_iff] using hne)]
  refine mean_pos hne ?_
  intro y hy
  obtain ⟨z, hz, rfl⟩ := List.mem_map.mp hy
  exact hpos z (List.mem_filter.mp hz).1

/-- Dot products are symmetric. -/
theorem dotp_comm : ∀ a b : List ℚ, dotp a b = dotp b a := by
  intro a
  induction a with
  | nil => intro b; cases b <;> simp [dotp]
  | cons x xs ih =>
    intro b
    cases b with
    | nil => simp [dotp]
    | cons y ys => simp [dotp, ih, mul_comm]

/-- Two users with no co-rated restaurant have orthogonal zero-filled
rating vectors. -/
theorem dotp_userVec_eq_zero {d : List RatingRow} {u v : Nat}
    (hco : coRatedCount d u v = 0) :
    dotp (userVec d u) (userVec d v) = 0 := by
  rw [userVec, userVec, dotp_map_map]
  apply List.sum_eq_zero
  intro y hy
  obtain ⟨r, hr, rfl⟩ := List.mem_map.mp hy
  have hnot : ¬ (ratedBy d u r && ratedBy d v r) = true := by
    intro hb
    have hmem : r ∈ (matrixRests d).filter (fun r => ratedBy d u r && ratedBy d v r) :=
      List.mem_filter.mpr ⟨hr, hb⟩
    have hlen := List.length_pos.mpr (List.ne_nil_of_mem hmem)
    rw [coRatedCount] at hco
    omega
  cases hu : ratedBy d u r with
  | false => rw [userItemVal_eq_zero hu, zero_mul]
  | true =>
    cases hv : ratedBy d v r with
    | false => rw [userItemVal_eq_zero hv, mul_zero]
    | true => exact absurd (by rw [hu, hv]; rfl) hnot

/-- A user of the matrix index has at least one rating row. -/
theorem exists_row_of_mem_matrixUsers {d : List RatingRow} {u : Nat}
    (h : u ∈ matrixUsers d) : ∃ x ∈ d, x.userId = u := by
  rw [matrixUsers] at h
  have h2 := (List.perm_insertionSort _ _).mem_iff.mp h
  have h3 := (mem_dedupFirst u _).mp h2
  obtain ⟨x, hx, hxu⟩ := List.mem_map.mp h3
  exact ⟨x, hx, hxu⟩

/-- The zero-filled vector of a user with some positive rating has positive
squared norm. -/
theorem normSq_userVec_pos {d : List RatingRow} {u : Nat}
    (hpos : ∀ x ∈ d, 0 < x.rating) (hx : ∃ x ∈ d, x.userId = u) :
    0 < normSq (userVec d u) := by
  obtain ⟨x, hxd, hxu⟩ := hx
  have hrb : ratedBy d u x.restId = true :=
    List.any_eq_true.mpr ⟨x, hxd, by simp [hxu]⟩
  have hval : 0 < userItemVal d u x.restId := userItemVal_pos hpos hrb
  have hrmem : x.restId ∈ matrixRests d := by
    rw [matrixRests]
    exact (List.perm_insertionSort _ _).mem_iff.mpr
      ((mem_dedupFirst _ _).mpr (List.mem_map_of_mem _ hxd))
  rw [normSq, userVec, dotp_map_map]
  refine sum_pos_of_mem_pos ?_
    (List.mem_map_of_mem (fun r => userItemVal d u r * userItemVal d u r) hrmem)
    (mul_pos hval hval)
  intro y hy
  obtain ⟨r, _, rfl⟩ := List.mem_map.mp hy
  exact mul_self_nonneg _

/-- Components of a pair drawn from pairsLt are members of the base list. -/
theorem pairsLt_mem {α : Type} (a b : α) :
    ∀ l : List α, (a, b) ∈ pairsLt l → a ∈ l ∧ b ∈ l := by
  intro l
  induction l with
  | nil => simp [pairsLt]
  | cons x xs ih =>
    intro h
    rw [pairsLt] at h
    rcases List.mem_append.mp h with h1 | h1
    · obtain ⟨y, hy, heq⟩ := List.mem_map.mp h1
      obtain ⟨h2, h3⟩ := Prod.mk.injEq .. ▸ heq
      exact ⟨h2 ▸ List.mem_cons_self _ _, h3 ▸ List.mem_cons_of_mem _ hy⟩
    · obtain ⟨ha, hb⟩ := ih h1
      exact ⟨List.mem_cons_of_mem _ ha, List.mem_cons_of_mem _ hb⟩

/-- Core of the corrected C2: a pair whose zero-filled vectors are
orthogonal is never emitted by the rating-similarity computation, because
its certified cosine is 0, below the 0.1 threshold. -/
theorem not_mem_computeRatingSimilarities
    (cos : List ℚ → List ℚ → ℚ) (data : List RatingRow) (a b : Nat)
    (hpos : ∀ x ∈ recentRatings data, 0 < x.rating)
    (hdot : dotp (userVec (recentRatings data) a) (userVec (recentRatings data) b) = 0)
    (hcv : IsCosineVal (userVec (recentRatings data) a) (userVec (recentRatings data) b)
        (cos (userVec (recentRatings data) a) (userVec (recentRatings data) b))) :
    ∀ s : ℚ, ((a, b), s) ∉ computeRatingSimilarities cos data := by
  intro s hmem
  rw [computeRatingSimilarities] at hmem
  obtain ⟨pr, hpr, heq⟩ := List.mem_filterMap.mp hmem
  obtain ⟨p1, p2⟩ := pr
  by_cases hgt : 1 / 10 <
      cos (userVec (recentRatings data) p1) (userVec (recentRatings data) p2)
  · rw [if_pos hgt] at heq
    simp only [Option.some.injEq, Prod.mk.injEq] at heq
    obtain ⟨⟨rfl, rfl⟩, _⟩ := heq
    obtain ⟨ha, hb⟩ := pairsLt_mem p1 p2 _ hpr
    have hna : 0 < normSq (userVec (recentRatings data) p1) :=
      normSq_userVec_pos hpos (exists_row_of_mem_matrixUsers ha)
    have hnb : 0 < normSq (userVec (recentRatings data) p2) :=
      normSq_userVec_pos hpos (exists_row_of_mem_matrixUsers hb)
    obtain ⟨hsq, _⟩ := hcv
    rw [hdot] at hsq
    have hzero : cos (userVec (recentRatings data) p1) (userVec (recentRatings data) p2) = 0 := by
      have hprod : 0 < normSq (userVec (recentRatings data) p1) *
          normSq (userVec (recentRatings data) p2) := mul_pos hna hnb
      have h2 : (cos (userVec (recentRatings data) p1)
          (userVec (recentRatings data) p2)) ^ 2 = 0 := by
        by_contra hne
        have := mul_ne_zero hne (ne_of_gt hprod)
        rw [hsq] at this
        simp at this
      exact pow_eq_zero_iff (by norm_num) |>.mp h2
    rw [hzero] at hgt
    norm_num at hgt
  · rw [if_neg hgt] at heq
    exact absurd heq (by simp)

/-- If a stored edge covers two unordered pairs it identifies them. -/
theorem edgeMatches_both {a b c d : Nat} {e : SimEdge}
    (h1 : edgeMatches a b e = true) (h2 : edgeMatches c d e = true) :
    (c = a ∧ d = b) ∨ (c = b ∧ d = a) := by
  simp only [edgeMatches, Bool.or_eq_true, Bool.and_eq_true, beq_iff_eq] at h1 h2
  rcases h1 with ⟨hu1, hu2⟩ | ⟨hu1, hu2⟩ <;> rcases h2 with ⟨hv1, hv2⟩ | ⟨hv1, hv2⟩ <;> omega

/-- An upsert for a pair other than (u, v) never creates or rewrites an
edge covering (u, v). -/
theorem mem_upsert_of_matches (rs ps : List ((Nat × Nat) × ℚ)) (pair : Nat × Nat)
    (store : List SimEdge) (u v : Nat) (e : SimEdge)
    (hpair : pair ≠ (u, v) ∧ pair ≠ (v, u))
    (he : e ∈ upsertSimilarity rs ps pair store)
    (hm : edgeMatches u v e = true) : e ∈ store := by
  rw [upsertSimilarity] at he
  by_cases hov : 15 / 100 <
      (alookup rs pair).getD 0 * (7 / 10) + (alookup ps pair).getD 0 * (3 / 10)
  · rw [if_pos hov] at he
    by_cases hex : store.any (edgeMatches pair.1 pair.2)
    · rw [if_pos hex] at he
      rcases mem_updateFirst _ _ _ _ he with h1 | ⟨x, _, hpx, hfx⟩
      · exact h1
      · exfalso
        have hmx : edgeMatches u v x = true := by
          subst hfx
          simpa [edgeMatches] using hm
        rcases edgeMatches_both hpx hmx with ⟨h1, h2⟩ | ⟨h1, h2⟩
        · exact hpair.1 (Prod.ext (by omega) (by omega))
        · exact hpair.2 (Prod.ext (by omega) (by omega))
    · rw [if_neg hex] at he
      rcases List.mem_append.mp he with h1 | h1
      · exact h1
      · exfalso
        rcases List.mem_singleton.mp h1 with rfl
        simp only [edgeMatches, Bool.or_eq_true, Bool.and_eq_true, beq_iff_eq] at hm
        have hp1 : ¬ (pair.1 = u ∧ pair.2 = v) := fun h =>
          hpair.1 (Prod.ext h.1 h.2)
        have hp2 : ¬ (pair.1 = v ∧ pair.2 = u) := fun h =>
          hpair.2 (Prod.ext h.1 h.2)
        omega
  · rw [if_neg hov] at he
    exact he

/-- Folding upserts over pairs that never cover (u, v) leaves the
(u, v)-covering edges of the store untouched. -/
theorem foldl_upsert_no_new_match (rs ps : List ((Nat × Nat) × ℚ)) (u v : Nat) :
    ∀ (pairs : List (Nat × Nat)) (store : List SimEdge),
      (∀ pr ∈ pairs, pr ≠ (u, v) ∧ pr ≠ (v, u)) →
      ∀ e ∈ pairs.foldl (fun st pair => upsertSimilarity rs ps pair st) store,
        edgeMatches u v e = true → e ∈ store := by
  intro pairs
  induction pairs with
  | nil => intro store _ e he _; exact he
  | cons a t ih =>
    intro store hp e he hm
    have h1 := ih (upsertSimilarity rs ps a store)
      (fun pr hpr => hp pr (List.mem_cons_of_mem _ hpr)) e he hm
    exact mem_upsert_of_matches rs ps a store u v e (hp a (List.mem_cons_self _ _)) h1 hm

/-- C2 amended: a pair of users with ZERO co-rated restaurants gets rating
similarity 0 (orthogonal zero-filled vectors), is never emitted by
_compute_rating_similarities, and — when the pair also has no preference
similarity — the store step neither creates nor rewrites an edge for the
pair.  The original claim spoke of fewer than 2 co-rated restaurants, but a
single co-rated restaurant already allows a nonzero cosine over the
zero-filled full vectors, which the source computes with no overlap check
(see the counterexample). -/
theorem c2_zero_overlap_amended
    (cos : List ℚ → List ℚ → ℚ) (data : List RatingRow) (u v : Nat)
    (hpos : ∀ x ∈ recentRatings data, 0 < x.rating)
    (hco : coRatedCount (recentRatings data) u v = 0)
    (huv : IsCosineVal (userVec (recentRatings data) u) (userVec (recentRatings data) v)
        (cos (userVec (recentRatings data) u) (userVec (recentRatings data) v)))
    (hvu : IsCosineVal (userVec (recentRatings data) v) (userVec (recentRatings data) u)
        (cos (userVec (recentRatings data) v) (userVec (recentRatings data) u))) :
    (∀ s : ℚ, ((u, v), s) ∉ computeRatingSimilarities cos data ∧
        ((v, u), s) ∉ computeRatingSimilarities cos data) ∧
    (∀ ps : List ((Nat × Nat) × ℚ),
        (∀ pr ∈ ps, pr.1 ≠ (u, v) ∧ pr.1 ≠ (v, u)) →
        ∀ (store : List SimEdge) (e : SimEdge),
          e ∈ storeCombinedSimilarities (computeRatingSimilarities cos data) ps store →
          edgeMatches u v e = true → e ∈ store) := by
  have hdot : dotp (userVec (recentRatings data) u) (userVec (recentRatings data) v) = 0 :=
    dotp_userVec_eq_zero hco
  have hdot2 : dotp (userVec (recentRatings data) v) (userVec (recentRatings data) u) = 0 := by
    rw [dotp_comm]; exact hdot
  have hnot1 := not_mem_computeRatingSimilarities cos data u v hpos hdot huv
  have hnot2 := not_mem_computeRatingSimilarities cos data v u hpos hdot2 hvu
  refine ⟨fun s => ⟨hnot1 s, hnot2 s⟩, ?_⟩
  intro ps hps store e he hm
  rw [storeCombinedSimilarities] at he
  have hkeys : ∀ pr ∈ pairKeys (computeRatingSimilarities cos data) ps,
      pr ≠ (u, v) ∧ pr ≠ (v, u) := by
    intro pr hpr
    have h1 := (mem_dedupFirst pr _).mp hpr
    rcases List.mem_append.mp h1 with h2 | h2
    · obtain ⟨x, hx, rfl⟩ := List.mem_map.mp h2
      constructor
      · intro hne
        exact hnot1 x.2 (by rw [← hne]; exact hx)
      · intro hne
        exact hnot2 x.2 (by rw [← hne]; exact hx)
    · obtain ⟨x, hx, rfl⟩ := List.mem_map.mp h2
      exact hps x hx
  have h3 := foldl_upsert_no_new_match (computeRatingSimilarities cos data) ps u v
    (pairKeys (computeRatingSimilarities cos data) ps)
    (store.filter (fun e => ¬ 7 < e.lastComputedAge)) hkeys e he hm
  exact (List.mem_filter.mp h3).1

/-- C2 counterexample: a pair of users with exactly ONE co-rated restaurant
(fewer than 2) receives rating similarity 1/2 — computed, kept (1/2 > 0.1),
and persisted by the store step as an edge with rating_similarity 1/2 and
overall_similarity 0.35 > 0.15.  The claim asserts such a pair has
similarity 0, not computed and not stored. -/
theorem c2_counterexample :
    coRatedCount (recentRatings dataC2) 1 2 = 1 ∧
    IsCosineVal (userVec (recentRatings dataC2) 1) (userVec (recentRatings dataC2) 2)
      (cosHalf (userVec (recentRatings dataC2) 1) (userVec (recentRatings dataC2) 2)) ∧
    computeRatingSimilarities cosHalf dataC2 = [((1, 2), 1 / 2)] ∧
    storeCombinedSimilarities (computeRatingSimilarities cosHalf dataC2) [] [] =
      [{ user1 := 1, user2 := 2, ratingSim := 1 / 2, prefSim := 0,
         overallSim := 7 / 20, lastComputedAge := 0 }] := by
  refine ⟨?_, ?_, ?_, ?_⟩ <;>
    norm_num [dataC2, cosHalf, coRatedCount, recentRatings, matrixRests, matrixUsers,
      ratedBy, userVec, userItemVal, mean, IsCosineVal, dotp, normSq, dedupFirst,
      List.insertionSort, List.orderedInsert, computeRatingSimilarities, pairsLt,
      storeCombinedSimilarities, pairKeys, upsertSimilarity, alookup, edgeMatches,
      updateFirst, List.find?, List.filterMap_cons, List.foldl, Option.bind,
      min_def, max_def]

/-- C2 witness: the amended theorem applied to the concrete disjoint-rating
database, discharging every hypothesis there. -/
theorem c2_zero_overlap_amended_witness :
    ((1, 2), (1 : ℚ)) ∉ computeRatingSimilarities cosZero dataC2W :=
  ((c2_zero_overlap_amended cosZero dataC2W 1 2
      (by norm_num [dataC2W, recentRatings])
      (by norm_num [dataC2W, coRatedCount, recentRatings, matrixRests, ratedBy,
        dedupFirst, List.insertionSort, List.orderedInsert])
      (by norm_num [dataC2W, cosZero, IsCosineVal, userVec, userItemVal, matrixRests,
        recentRatings, dedupFirst, List.insertionSort, List.orderedInsert, mean,
        dotp, normSq])
      (by norm_num [dataC2W, cosZero, IsCosineVal, userVec, userItemVal, matrixRests,
        recentRatings, dedupFirst, List.insertionSort, List.orderedInsert, mean,
        dotp, normSq])).1 1).1

/-- The greedy walk never lets any one cuisine exceed max(2, limit/4). -/
theorem diversityGo_cuisine_le (rests : List Restaurant) (limit : Nat) (c : String) :
    ∀ (l : List (Nat × ℚ)) (sel : List Nat),
      sel.countP (fun i => (getRestaurant rests i).cuisine == c) ≤ max 2 (limit / 4) →
      (diversityGo rests limit l sel).countP
        (fun i => (getRestaurant rests i).cuisine == c) ≤ max 2 (limit / 4) := by
  intro l
  induction l with
  | nil => intro sel h; simpa [diversityGo] using h
  | cons x rest ih =>
    intro sel h
    rw [diversityGo]
    by_cases hstop : limit ≤ sel.length
    · rw [if_pos hstop]; exact h
    · rw [if_neg hstop]
      by_cases hguard : sel.countP
            (fun i => (getRestaurant rests i).cuisine == (getRestaurant rests x.1).cuisine) <
            max 2 (limit / 4) ∧
          sel.countP
            (fun i => (getRestaurant rests i).price == (getRestaurant rests x.1).price) <
            max 2 (limit / 3)
      · rw [if_pos hguard]
        refine ih (sel ++ [x.1]) ?_
        rw [List.countP_append]
        by_cases hcx : ((getRestaurant rests x.1).cuisine == c) = true
        · have hceq : (getRestaurant rests x.1).cuisine = c := by simpa using hcx
          have hlt : sel.countP (fun i => (getRestaurant rests i).cuisine == c) <
              max 2 (limit / 4) := by
            have := hguard.1
            rw [hceq] at this
            exact this
          have hone : List.countP (fun i => (getRestaurant rests i).cuisine == c) [x.1] ≤ 1 := by
            simp only [List.countP_cons, List.countP_nil]
            split <;> norm_num
          omega
        · have hone : List.countP (fun i => (getRestaurant rests i).cuisine == c) [x.1] = 0 := by
            simp [List.countP_cons, hcx]
          omega
      · rw [if_neg hguard]
        exact ih sel h

/-- The greedy walk never lets any one price level exceed max(2, limit/3). -/
theorem diversityGo_price_le (rests : List Restaurant) (limit : Nat) (pl : Nat) :
    ∀ (l : List (Nat × ℚ)) (sel : List Nat),
      sel.countP (fun i => (getRestaurant rests i).price == pl) ≤ max 2 (limit / 3) →
      (diversityGo rests limit l sel).countP
        (fun i => (getRestaurant rests i).price == pl) ≤ max 2 (limit / 3) := by
  intro l
  induction l with
  | nil => intro sel h; simpa [diversityGo] using h
  | cons x rest ih =>
    intro sel h
    rw [diversityGo]
    by_cases hstop : limit ≤ sel.length
    · rw [if_pos hstop]; exact h
    · rw [if_neg hstop]
      by_cases hguard : sel.countP
            (fun i => (getRestaurant rests i).cuisine == (getRestaurant rests x.1).cuisine) <
            max 2 (limit / 4) ∧
          sel.countP
            (fun i => (getRestaurant rests i).price == (getRestaurant rests x.1).price) <
            max 2 (limit / 3)
      · rw [if_pos hguard]
        refine ih (sel ++ [x.1]) ?_
        rw [List.countP_append]
        by_cases hcx : ((getRestaurant rests x.1).price == pl) = true
        · have hceq : (getRestaurant rests x.1).price = pl := by simpa using hcx
          have hlt : sel.countP (fun i => (getRestaurant rests i).price == pl) <
              max 2 (limit / 3) := by
            have := hguard.2
            rw [hceq] at this
            exact this
          have hone : List.countP (fun i => (getRestaurant rests i).price == pl) [x.1] ≤ 1 := by
            simp only [List.countP_cons, List.countP_nil]
            split <;> norm_num
          omega
        · have hone : List.countP (fun i => (getRestaurant rests i).price == pl) [x.1] = 0 := by
            simp [List.countP_cons, hcx]
          omega
      · rw [if_neg hguard]
        exact ih sel h

/-- The greedy walk never grows the selection beyond the limit. -/
theorem diversityGo_length_le_limit (rests : List Restaurant) (limit : Nat) :
    ∀ (l : List (Nat × ℚ)) (sel : List Nat),
      sel.length ≤ limit → (diversityGo rests limit l sel).length ≤ limit := by
  intro l
  induction l with
  | nil => intro sel h; simpa [diversityGo] using h
  | cons x rest ih =>
    intro sel h
    rw [diversityGo]
    by_cases hstop : limit ≤ sel.length
    · rw [if_pos hstop]; exact h
    · rw [if_neg hstop]
      by_cases hguard : sel.countP
            (fun i => (getRestaurant rests i).cuisine == (getRestaurant rests x.1).cuisine) <
            max 2 (limit / 4) ∧
          sel.countP
            (fun i => (getRestaurant rests i).price == (getRestaurant rests x.1).price) <
            max 2 (limit / 3)
      · rw [if_pos hguard]
        refine ih (sel ++ [x.1]) ?_
        rw [List.length_append]
        simp only [List.length_singleton]
        omega
      · rw [if_neg hguard]
        exact ih sel h

/-- The greedy walk adds at most one selection per candidate. -/
theorem diversityGo_length_le_add (rests : List Restaurant) (limit : Nat) :
    ∀ (l : List (Nat × ℚ)) (sel : List Nat),
      (diversityGo rests limit l sel).length ≤ sel.length + l.length := by
  intro l
  induction l with
  | nil => intro sel; simp [diversityGo]
  | cons x rest ih =>
    intro sel
    rw [diversityGo]
    by_cases hstop : limit ≤ sel.length
    · rw [if_pos hstop]; simp
    · rw [if_neg hstop]
      by_cases hguard : sel.countP
            (fun i => (getRestaurant rests i).cuisine == (getRestaurant rests x.1).cuisine) <
            max 2 (limit / 4) ∧
          sel.countP
            (fun i => (getRestaurant rests i).price == (getRestaurant rests x.1).price) <
            max 2 (limit / 3)
      · rw [if_pos hguard]
        have := ih (sel ++ [x.1])
        rw [List.length_append] at this
        simp only [List.length_singleton] at this
        simp only [List.length_cons]
        omega
      · rw [if_neg hguard]
        have := ih sel
        simp only [List.length_cons]
        omega

/-- C5: for every requested limit and every scored candidate list, the
diversity selection holds at most max(2, limit/4) restaurants of any one
cuisine and at most max(2, limit/3) of any one price level, never exceeds
the limit, and never exceeds the number of candidates (so an exhausted
candidate list yields fewer than limit results). -/
theorem c5_diversity_caps (rests : List Restaurant) (limit : Nat)
    (scores : List (Nat × ℚ)) (c : String) (pl : Nat) :
    (enhanceDiversity scores rests limit).countP
        (fun i => (getRestaurant rests i).cuisine == c) ≤ max 2 (limit / 4) ∧
    (enhanceDiversity scores rests limit).countP
        (fun i => (getRestaurant rests i).price == pl) ≤ max 2 (limit / 3) ∧
    (enhanceDiversity scores rests limit).length ≤ limit ∧
    (enhanceDiversity scores rests limit).length ≤ scores.length := by
  refine ⟨?_, ?_, ?_, ?_⟩
  · exact diversityGo_cuisine_le rests limit c _ [] (by simp)
  · exact diversityGo_price_le rests limit pl _ [] (by simp)
  · exact diversityGo_length_le_limit rests limit _ [] (by simp)
  · have h := diversityGo_length_le_add rests limit (scores.insertionSort scoreGe) []
    have hlen : (scores.insertionSort scoreGe).length = scores.length :=
      (List.perm_insertionSort scoreGe scores).length_eq
    rw [hlen] at h
    simp only [List.length_nil, Nat.zero_add] at h
    rw [enhanceDiversity]
    exact h

set_option maxHeartbeats 1000000 in
/-- Profile evaluation on dbC1. -/
theorem profileC1_eval : buildUserProfile? fnsC1.d90 dbC1 1 = some profC1 := by
  simp [dbC1, fnsC1, profC1, buildUserProfile?, userJoinedRows, cuisinePrefsOf,
    distinctCuisines, cuisineScore, pricePrefsOf, qualityStandardsOf,
    explorationRatioOf, bubblePrefsOf, dedupFirst, wavg, mean, alookup]
  norm_num

set_option maxHeartbeats 1000000 in
/-- The collaborative pass on dbC1 is empty: user 1 has rated every
restaurant of the matrix. -/
theorem collabC1_eval : collaborativeFiltering fnsC1.cos dbC1.ratings 1 = [] := by
  simp [dbC1, fnsC1, collaborativeFiltering, matrixUsers, matrixRests, userItemVal,
    dedupFirst, List.insertionSort, List.orderedInsert, mean, Function.comp]

set_option maxHeartbeats 1000000 in
/-- The lightweight similarity search on dbC1 finds user 2 with cosine 1. -/
theorem findC1_eval : findSimilarTasteUsers fnsC1.cos dbC1.ratings 1 50 = [(2, 1)] := by
  simp [dbC1, fnsC1, findSimilarTasteUsers, userRestList, commonVectors, dedupFirst,
    alookup, List.insertionSort, List.orderedInsert, scoreGe, Function.comp]
  norm_num [List.filterMap_cons, alookup, List.find?, Function.comp,
    List.insertionSort, List.orderedInsert, scoreGe]

set_option maxHeartbeats 1000000 in
/-- The social-proof pass on dbC1. -/
theorem socialC1_eval :
    socialProofScores [(2, 1)] dbC1.ratings dbC1.restaurants =
      [(10, 1 / 10), (11, 1 / 10), (12, 1 / 10)] := by
  simp [dbC1, socialProofScores, socialScoreOf, alookup, mean, Function.comp]

set_option maxHeartbeats 1000000 in
/-- The temporal pass on dbC1. -/
theorem temporalC1_eval :
    temporalScores fnsC1.d30 dbC1 dbC1.restaurants 1 = [(10, 1), (11, 1), (12, 1)] := by
  simp [dbC1, fnsC1, temporalScores, userJoinedRows, alookup, mean, Function.comp]
  norm_num

set_option maxHeartbeats 1000000 in
/-- The content pass on dbC1 scores every restaurant, all three rated. -/
theorem contentC1_eval :
    contentBasedFiltering profC1 dbC1.restaurants =
      [(10, 7 / 10), (11, 7 / 10), (12, 7 / 10)] := by
  simp [dbC1, profC1, contentBasedFiltering, contentScore, matchBubblePreferences,
    alookup, Function.comp]
  norm_num

set_option maxHeartbeats 1000000 in
/-- Evaluation of the full advanced pipeline on dbC1: the diversity cap of
2 per cuisine (limit 10) keeps restaurants 10 and 11 — both already rated
by the target user. -/
theorem pipelineC1_eval :
    getPersonalizedRecommendations fnsC1 dbC1 1 10 none = [10, 11] := by
  have hrests : dbC1.restaurants.filter (fun r => r.active) = dbC1.restaurants := by
    norm_num [dbC1]
  rw [getPersonalizedRecommendations, profileC1_eval]
  simp only [hrests, collabC1_eval, findC1_eval, socialC1_eval, temporalC1_eval,
    contentC1_eval]
  simp [hybridScoring, hybridWeights, profC1, dedupFirst, alookup,
    enhanceDiversity, diversityGo, List.insertionSort, List.orderedInsert, scoreGe,
    getRestaurant, dbC1, Function.comp]

set_option maxHeartbeats 1000000 in
/-- C1 counterexample: user 1 has rated restaurant 10, yet restaurant 10
receives a content-based score (the content pass scores every active
restaurant, rated or not), and the final blended, diversity-selected
output of the full pipeline still contains restaurant 10.  The claim
asserts a rated restaurant is absent from the content map and from the
final output. -/
theorem c1_counterexample :
    (⟨1, 10, 5, 0⟩ : RatingRow) ∈ dbC1.ratings ∧
    buildUserProfile? fnsC1.d90 dbC1 1 = some profC1 ∧
    (10, 7 / 10) ∈ contentBasedFiltering profC1
      (dbC1.restaurants.filter (fun r => r.active)) ∧
    IsCosineVal [5, 5, 5] [5, 5, 5] 1 ∧
    getPersonalizedRecommendations fnsC1 dbC1 1 10 none = [10, 11] := by
  have hrests : dbC1.restaurants.filter (fun r => r.active) = dbC1.restaurants := by
    norm_num [dbC1]
  refine ⟨by norm_num [dbC1], profileC1_eval, ?_, ?_, pipelineC1_eval⟩
  · rw [hrests, contentC1_eval]
    simp
  · norm_num [IsCosineVal, dotp, normSq]

/-- C1 amended: a restaurant already rated by the target user never appears
in the collaborative score map (its matrix cell is positive, so it is not
an unrated candidate), but the content-based map scores every restaurant of
the feature frame including rated ones, and a rated restaurant can appear
in the final blended output (witnessed by the concrete pipeline run of
dbC1). -/
theorem c1_rated_amended (cos : List ℚ → List ℚ → ℚ) (data : List RatingRow)
    (u rid : Nat) (hpos : ∀ x ∈ data, 0 < x.rating)
    (hrated : ∃ x ∈ data, x.userId = u ∧ x.restId = rid) :
    (∀ s : ℚ, (rid, s) ∉ collaborativeFiltering cos data u) ∧
    (∀ (p : UserProfile) (rests : List Restaurant) (r : Restaurant),
        r ∈ rests → r.id = rid → (rid, contentScore p r) ∈ contentBasedFiltering p rests) ∧
    10 ∈ getPersonalizedRecommendations fnsC1 dbC1 1 10 none := by
  refine ⟨?_, ?_, ?_⟩
  · intro s hmem
    rw [collaborativeFiltering] at hmem
    by_cases h1 : data.isEmpty
    · rw [if_pos h1] at hmem
      exact absurd hmem (List.not_mem_nil _)
    · rw [if_neg h1] at hmem
      by_cases h2 : u ∈ matrixUsers data
      · rw [if_pos h2] at hmem
        obtain ⟨r, hr, heq⟩ := List.mem_filterMap.mp hmem
        have hrzero : userItemVal data u r = 0 :=
          of_decide_eq_true (List.mem_filter.mp hr).2
        have hreq : r = rid := by
          rw [collabEntry] at heq
          by_cases hc : (collabContrib data (topSimilarUsers cos data u) r).isEmpty
          · rw [if_pos hc] at heq
            exact absurd heq (by simp)
          · rw [if_neg hc] at heq
            simpa using congrArg (fun o => o.map Prod.fst) heq
        subst hreq
        obtain ⟨x, hx, hxu, hxr⟩ := hrated
        have hrb : ratedBy data u r = true :=
          List.any_eq_true.mpr ⟨x, hx, by simp [hxu, hxr]⟩
        have := userItemVal_pos hpos hrb
        rw [hrzero] at this
        exact absurd this (by norm_num)
      · rw [if_neg h2] at hmem
        exact absurd hmem (List.not_mem_nil _)
  · intro p rests r hr hid
    rw [contentBasedFiltering, ← hid]
    exact List.mem_map_of_mem _ hr
  · rw [pipelineC1_eval]
    simp

/-- C1 witness: the amended theorem applied to dbC1, where user 1 has
rated restaurant 10, discharging its hypotheses there. -/
theorem c1_rated_amended_witness :
    (10, (0 : ℚ)) ∉ collaborativeFiltering fnsC1.cos dbC1.ratings 1 :=
  (c1_rated_amended fnsC1.cos dbC1.ratings 1 10
    (by norm_num [dbC1])
    ⟨⟨1, 10, 5, 0⟩, by norm_num [dbC1], rfl, rfl⟩).1 0

set_option maxHeartbeats 1000000 in
/-- C6 counterexample: for a zero-rating user with a location, the source
re-sorts the cold-start page by distance before rating and returns
restaurant 2, while a list ordered by rating, then rating count, then
distance — as the claim words it — starts with restaurant 1. -/
theorem c6_counterexample :
    getPersonalizedRecommendations fnsC1 dbC6 7 1 (some (0, 0)) = [2] ∧
    coldStartSpecList dbC6 1 (some (0, 0)) = [1] ∧
    getPersonalizedRecommendations fnsC1 dbC6 7 1 (some (0, 0)) ≠
      coldStartSpecList dbC6 1 (some (0, 0)) := by
  refine ⟨?_, ?_, ?_⟩ <;>
    · simp [dbC6, fnsC1, getPersonalizedRecommendations, buildUserProfile?,
        userJoinedRows, coldStartRecommendations, coldStartSpecList, specPopLe,
        popLe, distRatingLe, ratingCountOf, distSq, List.insertionSort,
        List.orderedInsert, Option.elim]
      norm_num [popLe, specPopLe, distRatingLe, ratingCountOf, distSq, dbC6,
        Option.elim, List.insertionSort, List.orderedInsert]

/-- C6 amended: a user with zero ratings always receives the cold-start
list without blending and without failure; every returned restaurant is
active with avg_rating at least 4; at most limit ids are returned; and
WITHOUT a location the list is the rating-then-count descending order.
With a location the source instead re-orders the top page by distance
first (see the counterexample), not as a final tiebreak. -/
theorem c6_cold_start_amended :
    (∀ (fns : RealFns) (db : DB) (u limit : Nat) (loc : Option (ℚ × ℚ)),
        db.ratings.filter (fun x => x.userId == u) = [] →
        getPersonalizedRecommendations fns db u limit loc =
          coldStartRecommendations db limit loc) ∧
    (∀ (db : DB) (limit : Nat) (loc : Option (ℚ × ℚ)) (rid : Nat),
        rid ∈ coldStartRecommendations db limit loc →
        ∃ r ∈ db.restaurants, r.id = rid ∧ r.active = true ∧ 4 ≤ r.avgRating) ∧
    (∀ (db : DB) (limit : Nat) (loc : Option (ℚ × ℚ)),
        (coldStartRecommendations db limit loc).length ≤ limit) ∧
    (∀ (db : DB) (limit : Nat),
        coldStartRecommendations db limit none =
          (((db.restaurants.filter
              (fun r => r.active && decide (4 ≤ r.avgRating))).insertionSort
                (popLe db)).take limit).map (fun r => r.id) ∧
        List.Sorted (popLe db)
          (((db.restaurants.filter
              (fun r => r.active && decide (4 ≤ r.avgRating))).insertionSort
                (popLe db)).take limit)) := by
  refine ⟨?_, ?_, ?_, ?_⟩
  · intro fns db u limit loc h
    have hjoin : userJoinedRows db u = [] := by
      rw [userJoinedRows, h]
      rfl
    have hprof : buildUserProfile? fns.d90 db u = none := by
      simp [buildUserProfile?, hjoin]
    rw [getPersonalizedRecommendations, hprof]
  · intro db limit loc rid hmem
    cases loc with
    | none =>
      simp only [coldStartRecommendations] at hmem
      obtain ⟨r, hr, hid⟩ := List.mem_map.mp hmem
      have hr2 : r ∈ db.restaurants.filter
          (fun r => r.active && decide (4 ≤ r.avgRating)) :=
        (List.perm_insertionSort (popLe db) _).mem_iff.mp
          (List.take_subset _ _ (List.take_subset _ _ hr))
      obtain ⟨hmem2, hcond⟩ := List.mem_filter.mp hr2
      rw [Bool.and_eq_true] at hcond
      exact ⟨r, hmem2, hid, hcond.1, of_decide_eq_true hcond.2⟩
    | some l =>
      simp only [coldStartRecommendations] at hmem
      obtain ⟨r, hr, hid⟩ := List.mem_map.mp hmem
      have hr2 : r ∈ db.restaurants.filter
          (fun r => r.active && decide (4 ≤ r.avgRating)) :=
        (List.perm_insertionSort (popLe db) _).mem_iff.mp
          (List.take_subset _ _
            ((List.perm_insertionSort (distRatingLe l) _).mem_iff.mp
              (List.take_subset _ _ hr)))
      obtain ⟨hmem2, hcond⟩ := List.mem_filter.mp hr2
      rw [Bool.and_eq_true] at hcond
      exact ⟨r, hmem2, hid, hcond.1, of_decide_eq_true hcond.2⟩
  · intro db limit loc
    cases loc with
    | none =>
      simp only [coldStartRecommendations, List.length_map, List.length_take]
      exact min_le_left _ _
    | some l =>
      simp only [coldStartRecommendations, List.length_map, List.length_take]
      exact min_le_left _ _
  · intro db limit
    constructor
    · simp only [coldStartRecommendations, List.take_take]
      rw [min_eq_left (by omega : limit ≤ 2 * limit)]
    · exact List.Pairwise.sublist (List.take_sublist _ _)
        (List.sorted_insertionSort (popLe db) _)

/-- C6 witness: part one of the amended theorem applied to the concrete
zero-rating user of dbC6, discharging its hypothesis there. -/
theorem c6_cold_start_amended_witness :
    getPersonalizedRecommendations fnsC1 dbC6 7 1 (some (0, 0)) =
      coldStartRecommendations dbC6 1 (some (0, 0)) :=
  c6_cold_start_amended.1 fnsC1 dbC6 7 1 (some (0, 0)) (by norm_num [dbC6])

set_option maxHeartbeats 4000000 in
/-- The lightweight similarity search on dataC3 finds users 1..11, each
with cosine exactly 1. -/
theorem findC3_eval :
    findSimilarTasteUsers cosOne dataC3 0 50 =
      [(1, 1), (2, 1), (3, 1), (4, 1), (5, 1), (6, 1), (7, 1), (8, 1), (9, 1),
       (10, 1), (11, 1)] := by
  simp [dataC3, cosOne, findSimilarTasteUsers, userRestList, commonVectors, dedupFirst,
    alookup, List.insertionSort, List.orderedInsert, scoreGe, Function.comp,
    List.range, List.range.loop]
  norm_num [List.filterMap_cons, alookup, List.find?, Function.comp,
    List.insertionSort, List.orderedInsert, scoreGe]

set_option maxHeartbeats 4000000 in
/-- C3 counterexample: with 11 contributing similar-user ratings of 5 at
similarity 1, the source computes mean(rating * similarity)/5 * (11/10) =
11/10, while the claimed formula caps the factor at 1 and yields 1. -/
theorem c3_counterexample :
    IsCosineVal [5, 5, 5] [5, 5, 5] 1 ∧
    socialScoreOf (findSimilarTasteUsers cosOne dataC3 0 50) dataC3 restC3 = 11 / 10 ∧
    socialScoreSpecOf (findSimilarTasteUsers cosOne dataC3 0 50) dataC3 restC3 = 1 ∧
    socialScoreOf (findSimilarTasteUsers cosOne dataC3 0 50) dataC3 restC3 ≠
      socialScoreSpecOf (findSimilarTasteUsers cosOne dataC3 0 50) dataC3 restC3 := by
  rw [findC3_eval]
  refine ⟨by norm_num [IsCosineVal, dotp, normSq], ?_, ?_, ?_⟩ <;>
    · simp [dataC3, restC3, socialScoreOf, socialScoreSpecOf, alookup, mean,
        Function.comp, List.range, List.range.loop]
      norm_num

/-- C3 amended: every user kept by the lightweight similarity search has
similarity above 0.3 and at least 3 co-rated restaurants, at most limit
users are kept, every restaurant of the frame receives exactly the social
score of socialScoreOf, and that score agrees with the claimed
min-capped formula precisely when at most 10 similar-user ratings
contribute; with more than 10 the source's uncapped count/10 factor
exceeds the claimed min(count/10, 1) (see the counterexample). -/
theorem c3_social_amended :
    (∀ (cos : List ℚ → List ℚ → ℚ) (data : List RatingRow) (u lim v : Nat) (s : ℚ),
        (v, s) ∈ findSimilarTasteUsers cos data u lim →
        3 / 10 < s ∧ 3 ≤ (commonVectors data u v).length) ∧
    (∀ (cos : List ℚ → List ℚ → ℚ) (data : List RatingRow) (u lim : Nat),
        (findSimilarTasteUsers cos data u lim).length ≤ lim) ∧
    (∀ (simUsers : List (Nat × ℚ)) (data : List RatingRow)
        (rests : List Restaurant) (r : Restaurant), r ∈ rests →
        (r.id, socialScoreOf simUsers data r) ∈ socialProofScores simUsers data rests) ∧
    (∀ (simUsers : List (Nat × ℚ)) (data : List RatingRow) (r : Restaurant),
        (data.filter (fun x => x.restId == r.id &&
          (alookup simUsers x.userId).isSome)).length ≤ 10 →
        socialScoreOf simUsers data r = socialScoreSpecOf simUsers data r) := by
  refine ⟨?_, ?_, ?_, ?_⟩
  · intro cos data u lim v s hmem
    rw [findSimilarTasteUsers] at hmem
    by_cases hempty : (userRestList data u).isEmpty
    · rw [if_pos hempty] at hmem
      exact absurd hmem (List.not_mem_nil _)
    · rw [if_neg hempty] at hmem
      have hmem2 := (List.perm_insertionSort scoreGe _).mem_iff.mp
        (List.take_subset _ _ hmem)
      obtain ⟨w, _, heq⟩ := List.mem_filterMap.mp hmem2
      by_cases h3 : 3 ≤ (commonVectors data u w).length
      · rw [if_pos h3] at heq
        by_cases hgt : 3 / 10 < cos ((commonVectors data u w).map (fun p => p.1))
            ((commonVectors data u w).map (fun p => p.2))
        · rw [if_pos hgt] at heq
          simp only [Option.some.injEq, Prod.mk.injEq] at heq
          obtain ⟨rfl, rfl⟩ := heq
          exact ⟨hgt, h3⟩
        · rw [if_neg hgt] at heq
          exact absurd heq (by simp)
      · rw [if_neg h3] at heq
        exact absurd heq (by simp)
  · intro cos data u lim
    rw [findSimilarTasteUsers]
    by_cases hempty : (userRestList data u).isEmpty
    · rw [if_pos hempty]; simp
    · rw [if_neg hempty]
      rw [List.length_take]
      exact min_le_left _ _
  · intro simUsers data rests r hr
    rw [socialProofScores]
    exact List.mem_map_of_mem _ hr
  · intro simUsers data r hlen
    rw [socialScoreOf, socialScoreSpecOf]
    by_cases hempty : (data.filter (fun x => x.restId == r.id &&
        (alookup simUsers x.userId).isSome)).isEmpty
    · rw [if_pos hempty, if_pos hempty]
    · rw [if_neg hempty, if_neg hempty]
      have hcast : ((data.filter (fun x => x.restId == r.id &&
          (alookup simUsers x.userId).isSome)).length : ℚ) ≤ 10 := by
        exact_mod_cast hlen
      rw [min_eq_left (by linarith : ((data.filter (fun x => x.restId == r.id &&
        (alookup simUsers x.userId).isSome)).length : ℚ) / 10 ≤ 1)]

/-- C3 witness: part four of the amended theorem applied at empty data,
discharging its hypothesis there. -/
theorem c3_social_amended_witness :
    socialScoreOf [] [] restC3 = socialScoreSpecOf [] [] restC3 :=
  c3_social_amended.2.2.2 [] [] restC3 (by simp)

/-- C10: a candidate restaurant the target user has already rated scores
exactly 0; it is nonetheless kept in the scored candidate list with that
score; and on the concrete dbC10 the rated restaurant appears last in the
returned recommendations. -/
theorem c10_rated_zero_score :
    (∀ (cos : List ℚ → List ℚ → ℚ) (plog : Nat → ℚ) (db : LiveDB)
        (user : LiveUser) (r : LiveRestaurant),
        (∃ x ∈ db.ratings, x.userId = user.id ∧ x.restId = r.id) →
        calculateRestaurantScoreLive cos plog db user r (userRatingDict db user.id) = 0) ∧
    (∀ (cos : List ℚ → List ℚ → ℚ) (plog : Nat → ℚ)
        (dist : ℚ × ℚ → ℚ × ℚ → ℚ) (db : LiveDB) (user : LiveUser)
        (lat lng maxD : ℚ) (cf : List String) (pf : List Nat) (r : LiveRestaurant),
        r ∈ getCandidateRestaurants dist db lat lng maxD cf pf →
        ∃ e ∈ scoredCandidates cos plog dist db user lat lng maxD cf pf,
          e.restId = r.id ∧
          e.score = calculateRestaurantScoreLive cos plog db user r
            (userRatingDict db user.id)) ∧
    computeRecommendationsLive cosOne plogZero distZero dbC10 userC10 0 0 10 [] [] 20 =
      [⟨2, 6 / 5, 0⟩, ⟨1, 0, 0⟩] := by
  refine ⟨?_, ?_, ?_⟩
  · intro cos plog db user r hrated
    obtain ⟨x, hx, hxu, hxr⟩ := hrated
    have hsome : (alookup (userRatingDict db user.id) r.id).isSome = true := by
      have hfind : (List.find? (fun p => p.1 == r.id)
          (userRatingDict db user.id)).isSome = true := by
        rw [List.find?_isSome]
        refine ⟨(x.restId, x.rating), ?_, by simp [hxr]⟩
        rw [userRatingDict]
        exact List.mem_map_of_mem _ (List.mem_filter.mpr ⟨hx, by simp [hxu]⟩)
      obtain ⟨v, hv⟩ := Option.isSome_iff_exists.mp hfind
      rw [alookup, hv]
      rfl
    rw [calculateRestaurantScoreLive, if_pos hsome]
  · intro cos plog dist db user lat lng maxD cf pf r hr
    exact ⟨_, List.mem_map_of_mem _ hr, rfl, rfl⟩
  · simp [dbC10, userC10, cosOne, plogZero, distZero, computeRecommendationsLive,
      getCandidateRestaurants, scoredCandidates, calculateRestaurantScoreLive,
      calculateCollaborativeScoreLive, calculateContentScoreLive, liveUserSimilarity,
      userRatingDict, alookup, List.insertionSort, List.orderedInsert, entryGe,
      dedupFirst, Function.comp]
    norm_num

/-- C10 witness: the score of the rated restaurant 1 of dbC10, via the
universal part of the theorem applied at that concrete input. -/
theorem c10_rated_zero_score_witness :
    calculateRestaurantScoreLive cosOne plogZero dbC10 userC10
      ⟨1, "thai", 2, 5, none, 1, 0, 0, true⟩ (userRatingDict dbC10 userC10.id) = 0 :=
  c10_rated_zero_score.1 cosOne plogZero dbC10 userC10
    ⟨1, "thai", 2, 5, none, 1, 0, 0, true⟩
    ⟨⟨7, 1, 5, 0⟩, by norm_num [dbC10], rfl, rfl⟩

/-- C9: the cache key is derived from exactly the user id, the coordinates
rounded to three decimals, the max distance, the two sorted filters and
the limit; the TTL is 30 minutes; and any cache state other than a hit —
no client, a swallowed read error, or a miss — returns the uncached
pipeline result. -/
theorem c9_cache_soft_fail :
    (∀ (uid : Nat) (lat lng lat2 lng2 maxD : ℚ) (cf cf2 : List String)
        (pf pf2 : List Nat) (limit : Nat),
        round (lat * 1000) = round (lat2 * 1000) →
        round (lng * 1000) = round (lng2 * 1000) →
        cf.insertionSort (· ≤ ·) = cf2.insertionSort (· ≤ ·) →
        pf.insertionSort (· ≤ ·) = pf2.insertionSort (· ≤ ·) →
        getCacheKey uid lat lng maxD cf pf limit =
          getCacheKey uid lat2 lng2 maxD cf2 pf2 limit) ∧
    cacheTTLSeconds = 30 * 60 ∧
    (∀ (cos : List ℚ → List ℚ → ℚ) (plog : Nat → ℚ)
        (dist : ℚ × ℚ → ℚ × ℚ → ℚ) (db : LiveDB) (user : LiveUser)
        (lat lng maxD : ℚ) (cf : List String) (pf : List Nat) (limit : Nat)
        (cache : CacheView (List RecEntry)),
        (∀ v, cache ≠ CacheView.hit v) →
        getRecommendationsLive cos plog dist db user lat lng maxD cf pf limit cache =
          computeRecommendationsLive cos plog dist db user lat lng maxD cf pf limit) := by
  refine ⟨?_, rfl, ?_⟩
  · intro uid lat lng lat2 lng2 maxD cf cf2 pf pf2 limit hlat hlng hcf hpf
    have hflat : fmt3 lat = fmt3 lat2 := by rw [fmt3, fmt3, hlat]
    have hflng : fmt3 lng = fmt3 lng2 := by rw [fmt3, fmt3, hlng]
    have hcfe : cf.isEmpty = cf2.isEmpty := by
      have h1 : cf.length = cf2.length := by
        rw [← (List.perm_insertionSort (fun a b : String => a ≤ b) cf).length_eq, hcf,
          (List.perm_insertionSort (fun a b : String => a ≤ b) cf2).length_eq]
      cases cf <;> cases cf2 <;> simp_all
    have hpfe : pf.isEmpty = pf2.isEmpty := by
      have h1 : pf.length = pf2.length := by
        rw [← (List.perm_insertionSort (fun a b : Nat => a ≤ b) pf).length_eq, hpf,
          (List.perm_insertionSort (fun a b : Nat => a ≤ b) pf2).length_eq]
      cases pf <;> cases pf2 <;> simp_all
    rw [getCacheKey, getCacheKey, hflat, hflng, hcf, hpf, hcfe, hpfe]
  · intro cos plog dist db user lat lng maxD cf pf limit cache hne
    cases cache with
    | unavailable => rfl
    | readError => rfl
    | miss => rfl
    | hit v => exact absurd rfl (hne v)

/-- C9 witness: two concrete queries differing only in coordinate digits
beyond the third decimal and in filter order produce the same cache key,
via the theorem applied at those inputs; and a concrete cache miss returns
the pipeline result. -/
theorem c9_cache_soft_fail_witness :
    getCacheKey 1 (359132 / 10000) 0 10 ["b", "a"] [2, 1] 20 =
      getCacheKey 1 (3591320001 / 100000000) 0 10 ["a", "b"] [1, 2] 20 :=
  c9_cache_soft_fail.1 1 (359132 / 10000) 0 (3591320001 / 100000000) 0 10
    ["b", "a"] ["a", "b"] [2, 1] [1, 2] 20
    (by rw [round_eq, round_eq]; norm_num)
    rfl
    (by simp [List.insertionSort, List.orderedInsert]; decide)
    (by simp [List.insertionSort, List.orderedInsert])

end Foodie
